import Mathlib

/-!
Verification development for the dependency-analyser repository.

The two source programs are shallowly embedded:

* `github-dependency-analyzer.py`: the override table (`dependency_mapping.csv`),
  the per-ecosystem license / documentation-URL resolvers
  (`fetch_dependency_license`, `fetch_dependency_url`), the per-repository
  resolution loop of `process_repositories`, the CSV report writer
  (`write_results_to_csv`) and the missing-data worklist generator
  (`generate_missing_dependency_mapping`).
* `infrastructure.py`: `clone_repo`, the resource assembly of
  `analyze_repository`, and the failure isolation of `main`
  (`asyncio.gather(..., return_exceptions=True)`).

Network I/O is modelled by an explicit oracle (`Remote`): each registry
endpoint the code queries is a field of the oracle, whose payload structures
carry exactly the JSON fields the code reads.  A fetch outcome is `exn`
(any exception inside the request's try block: transport error, timeout, or
a malformed body making `response.json()` raise), `notFound` (non-200
status) or `ok payload`.
Python `None` values flowing through license fields are modelled as `Option`.
Regular-expression matching at the parsing boundary is embedded as the
equivalent string computation, documented at each definition.
-/

namespace DepAnalyzer

/-! ### Generic helpers -/

/-- Concatenation of the images of a list, used to model nested Python loops. -/
def concatMap {α β : Type} (f : α → List β) : List α → List β
  | [] => []
  | a :: l => f a ++ concatMap f l

/-- First-match association lookup, used to model Python `dict` reads
(`m[k]` / `k in m`) on maps represented as insertion-ordered pair lists. -/
def lookupA {β : Type} : List (String × β) → String → Option β
  | [], _ => none
  | (k, v) :: rest, key => if k = key then some v else lookupA rest key

/-- First `some` produced by `f` along a list; models a Python loop that
`return`s on the first success and otherwise keeps iterating. -/
def firstSome {α β : Type} (f : α → Option β) : List α → Option β
  | [] => none
  | a :: l => match f a with | some b => some b | none => firstSome f l

/-- Whether `pat` is a prefix of `l` (character lists). -/
def isPrefixL : List Char → List Char → Bool
  | [], _ => true
  | _ :: _, [] => false
  | p :: ps, c :: cs => p == c && isPrefixL ps cs

/-- Whether `pat` occurs as a contiguous substring of `l`; models Python
`pat in s`.  Structural recursion keeps it kernel-reducible. -/
def containsL (pat : List Char) : List Char → Bool
  | [] => isPrefixL pat []
  | c :: rest => isPrefixL pat (c :: rest) || containsL pat rest

/-- Substring test on strings: Python `pat in s`. -/
def strContains (s pat : String) : Bool := containsL pat.data s.data

/-- Fuelled splitter behind `splitOnS`: at every step either the separator is
consumed (starting a new piece) or one character moves into the current
piece. -/
def splitOnLAux (pat : List Char) : Nat → List Char → List Char → List (List Char)
  | 0, _, acc => [acc.reverse]
  | _ + 1, [], acc => [acc.reverse]
  | fuel + 1, c :: rest, acc =>
    if isPrefixL pat (c :: rest) then
      acc.reverse :: splitOnLAux pat fuel (List.drop (pat.length - 1) rest) []
    else splitOnLAux pat fuel rest (c :: acc)

/-- Python `s.split(pat)` for non-empty `pat` (the only way this code uses
it): the pieces between non-overlapping left-to-right occurrences. -/
def splitOnS (s pat : String) : List String :=
  if pat.data.isEmpty then [s]
  else (splitOnLAux pat.data (s.data.length + 1) s.data []).map (fun l => ⟨l⟩)

/-- Python `s.startswith(pat)`. -/
def startsWithS (s pat : String) : Bool := isPrefixL pat.data s.data

/-- Python `s.endswith(pat)`. -/
def endsWithS (s pat : String) : Bool := isPrefixL pat.data.reverse s.data.reverse

/-- First `n` characters of `s`. -/
def takeS (s : String) (n : Nat) : String := ⟨s.data.take n⟩

/-- `s` without its first `n` characters. -/
def dropS (s : String) (n : Nat) : String := ⟨s.data.drop n⟩

/-- `s` without its last `n` characters. -/
def dropRightS (s : String) (n : Nat) : String := ⟨s.data.take (s.data.length - n)⟩

/-- The whitespace characters `str.strip()` removes (the inputs here are
ASCII text files). -/
def isSpaceChar (c : Char) : Bool := c == ' ' || c == '\t' || c == '\n' || c == '\r'

/-- Python `s.strip()`. -/
def trimS (s : String) : String :=
  ⟨((s.data.dropWhile isSpaceChar).reverse.dropWhile isSpaceChar).reverse⟩

/-- Python `s.replace(pat, sub)` (non-overlapping, left to right), as
split-and-rejoin. -/
def replaceS (s pat sub : String) : String :=
  ⟨(List.intersperse sub.data ((splitOnS s pat).map (fun t => t.data))).foldl
    (fun acc l => acc ++ l) []⟩

/-- Python `sep.join(parts)`. -/
def joinS (sep : String) (parts : List String) : String :=
  ⟨(List.intersperse sep.data (parts.map (fun t => t.data))).foldl
    (fun acc l => acc ++ l) []⟩

/-- Model of Python `str.lower()` (the inputs of this program are ASCII). -/
def lowerStr (s : String) : String := ⟨s.data.map Char.toLower⟩

/-! ### Data model: ecosystems and the override table -/

/-- The four dependency ecosystems handled by `process_repositories`. -/
inductive Ecosystem where
  | python
  | javascript
  | java
  | dotnet
deriving DecidableEq, BEq, Repr

instance : LawfulBEq Ecosystem where
  eq_of_beq := by
    intro a b h
    cases a <;> cases b <;> first | rfl | exact absurd h (by decide)
  rfl := by intro a; cases a <;> rfl

/-- The `dep_type` string used for an ecosystem throughout the code. -/
def Ecosystem.key : Ecosystem → String
  | .python => "python"
  | .javascript => "javascript"
  | .java => "java"
  | .dotnet => "dotnet"

/-- One row of `dependency_mapping.csv` as loaded by
`load_dependency_mapping` (header
`dependency_name,dependency_type,version,license,documentation_url`). -/
structure MappingRow where
  dependency_name : String
  dependency_type : String
  version : String
  license : String
  documentation_url : String
deriving DecidableEq, Repr

/-- The loaded override table: an insertion-ordered map from
`"{dependency_type}:{dependency_name}"` keys to rows. -/
abbrev DepMap : Type := List (String × MappingRow)

/-- Python dict assignment `m[k] = v`: overwrite in place if the key exists,
otherwise append (dicts preserve insertion order). -/
def dictInsert (m : DepMap) (k : String) (v : MappingRow) : DepMap :=
  match lookupA m k with
  | some _ => m.map (fun p => if p.1 = k then (k, v) else p)
  | none => m ++ [(k, v)]

/-- Key normalisation performed at the top of `process_repositories`
(lines 1124-1132): every key of the loaded mapping is lower-cased. -/
def normalizeMapProcess (m : DepMap) : DepMap :=
  m.foldl (fun acc p => dictInsert acc (lowerStr p.1) p.2) []

/-- Key normalisation performed by `write_results_to_csv` (lines 1261-1266)
and `generate_markdown_report`: keys containing a colon are split at the
first colon and both halves lower-cased (which equals lower-casing the whole
key); keys without a colon are dropped. -/
def normalizeMapCsv (m : DepMap) : DepMap :=
  m.foldl (fun acc p =>
    if strContains p.1 ":" then dictInsert acc (lowerStr p.1) p.2 else acc) []

/-! ### The remote registries, as an oracle -/

/-- Outcome of one `requests.get` plus parse: `exn` is any exception raised
inside the surrounding try block — transport error, timeout, or a malformed
body making `response.json()` raise; `notFound` a non-200 status; `ok` a 200
response with parsed payload. -/
inductive Fetched (α : Type) where
  | exn
  | notFound
  | ok (val : α)

/-- The fields of a PyPI `/pypi/{name}/json` response body that
`fetch_dependency_license` / `fetch_dependency_url` read.  String fields use
`""` for absent-or-empty (the code tests them with Python truthiness). -/
structure PypiInfo where
  license : String
  classifiers : List String
  projectUrls : List (String × String)
  homePage : String
  projectUrl : String
  docsUrl : String
  packageUrl : String

/-- The `repository` field of an npm registry response: either an object with
an optional `url`, or a bare string. -/
inductive NpmRepository where
  | dict (url : Option String)
  | str (s : String)

/-- The fields of a `registry.npmjs.org/{name}` response that the code reads.
`license` is `Option` because the code tests key presence (`'license' in
data`), not truthiness; its value is the string the code produces
(`license_data` itself, or `str(license_data)` for an object). -/
structure NpmInfo where
  license : Option String
  homepage : String
  repository : Option NpmRepository

/-- One document of a Maven Central `solrsearch` response.  `license` and
`scm` are presence-tested (`Option`); the three URL fields are tested for
presence and truthiness (`""` = absent). -/
structure MavenDoc where
  license : Option String
  scmUrl : Option String
  homepage : String
  urlField : String
  downloadUrl : String

/-- The `catalogEntry` reached through
`registration5-semver1/{name}/index.json` via `items[0].items[0]`.
`license` / `licenseExpression` / `repositoryUrl` are presence-tested;
`licenseUrl` and `projectUrl` are presence-and-truthiness-tested. -/
structure NugetCatalogEntry where
  license : Option String
  licenseExpression : Option String
  licenseUrl : String
  projectUrl : String
  repositoryUrl : Option String

/-- The `v3-flatcontainer/{name}/{version}/packageinfo.json` payload fields the
code reads.  `license` / `licenseExpression` are presence-tested; the URL
fields are presence-and-truthiness-tested. -/
structure NugetPackageInfo where
  license : Option String
  licenseExpression : Option String
  licenseUrl : String
  projectUrl : String
  repositoryUrl : String

/-- The remote world: every registry endpoint the resolvers contact.
`githubLicense` stands for the whole `check_github_repo_license` probe chain
(lines 209-259), which only issues further HTTP requests; `httpText` serves
the raw license-file fetch of the NuGet `licenseUrl` branch. -/
structure Remote where
  pypi : String → Fetched PypiInfo
  npm : String → Fetched NpmInfo
  maven : String → String → Fetched (List MavenDoc)
  nugetIndex : String → Fetched (Option NugetCatalogEntry)
  nugetPackageInfo : String → String → Fetched NugetPackageInfo
  httpText : String → Fetched String
  githubLicense : String → Option String

/-- The totally-failing remote world: every request raises (timeout /
transport error) and every GitHub probe finds nothing. -/
def failingRemote : Remote :=
  { pypi := fun _ => Fetched.exn
    npm := fun _ => Fetched.exn
    maven := fun _ _ => Fetched.exn
    nugetIndex := fun _ => Fetched.exn
    nugetPackageInfo := fun _ _ => Fetched.exn
    httpText := fun _ => Fetched.exn
    githubLicense := fun _ => none }

/-! ### Pure URL / license helpers of the analyzer -/

/-- `extract_github_repo_from_url` (lines 190-206): the two regex searches for
a `github.com/org/repo` occurrence, embedded over `splitOn`: when
`"github.com/"` occurs, the two following `/`-separated segments (cut at `?`
and `&` as the character classes demand) form the repo URL; otherwise the
result is `None`. -/
def extractGithubRepoFromUrl (url : String) : Option String :=
  if url = "" then none
  else if strContains url "github.com/" then
    match (splitOnS url "github.com/").tail.head? with
    | some tail =>
      match splitOnS tail "/" with
      | orgRaw :: restSegs =>
        let org := (splitOnS ((splitOnS orgRaw "?").headD "") "&").headD ""
        match restSegs with
        | repoRaw :: _ =>
          let repo := (splitOnS ((splitOnS repoRaw "?").headD "") "&").headD ""
          if org != "" && repo != "" then
            some ("https://github.com/" ++ org ++ "/" ++ repo)
          else none
        | [] => none
      | [] => none
    | none => none
  else none

/-- The (insertion-ordered) identifier table of
`identify_license_from_content` (lines 268-303). -/
def licenseIdentifiers : List (String × String) :=
  [("MIT License", "MIT"),
   ("Permission is hereby granted, free of charge,", "MIT"),
   ("Apache License", "Apache"),
   ("Licensed under the Apache License", "Apache"),
   ("GNU GENERAL PUBLIC LICENSE", "GPL"),
   ("Version 3", "GPL-3.0"),
   ("Version 2", "GPL-2.0"),
   ("BSD License", "BSD"),
   ("Redistribution and use in source and binary forms", "BSD"),
   ("GNU LESSER GENERAL PUBLIC LICENSE", "LGPL"),
   ("Mozilla Public License", "MPL"),
   ("Microsoft Public License", "MS-PL"),
   ("Microsoft Reciprocal License", "MS-RL"),
   ("The Unlicense", "Unlicense"),
   ("Creative Commons", "CC"),
   ("Eclipse Public License", "EPL"),
   ("Do What The F*ck You Want To Public License", "WTFPL"),
   ("ISC License", "ISC"),
   ("Boost Software License", "BSL")]

/-- `identify_license_from_content` (lines 262-311): `none` for empty content
(Python returns `None`), the first case-insensitive identifier hit, else
`"Custom License"`. -/
def identifyLicenseFromContent (content : String) : Option String :=
  if content = "" then none
  else
    match licenseIdentifiers.find?
        (fun p => strContains (lowerStr content) (lowerStr p.1)) with
    | some p => some p.2
    | none => some "Custom License"

/-- The npm repository-URL clean-up of `fetch_dependency_url` (lines
971-974): strip a leading `git+`, a trailing `.git`, and rewrite a leading
`git:` to `https:`. -/
def cleanGitUrl (u : String) : String :=
  let u1 := if startsWithS u "git+" then dropS u 4 else u
  let u2 := if endsWithS u1 ".git" then dropRightS u1 4 else u1
  if startsWithS u2 "git:" then "https:" ++ dropS u2 4 else u2

/-- The license-from-URL keyword scan used twice in the .NET license branch
(lines 831-841 and 875-885). -/
def licenseFromUrlKeywords (licenseUrl : String) : Option String :=
  let lu := lowerStr licenseUrl
  if strContains lu "mit" then some "MIT"
  else if strContains lu "apache" then some "Apache"
  else if strContains lu "gpl" then some "GPL"
  else if strContains lu "bsd" then some "BSD"
  else if strContains lu "ms-pl" || strContains lu "microsoft" then some "MS-PL"
  else none

/-- `dependency.split(':', 1)`: split a Java coordinate at the first colon. -/
def splitMavenCoords (dep : String) : String × String :=
  match splitOnS dep ":" with
  | [] => (dep, "")
  | g :: rest => (g, joinS ":" rest)

/-! ### fetch_dependency_url (lines 894-1074) -/

/-- Python branch of `fetch_dependency_url` (lines 912-952).  The candidate
list is built exactly as in the source: `project_url` first, documentation-
labelled `project_urls` entries inserted at the front one by one (so the last
match ends up first), then `home_page`, `docs_url`, `package_url`, with the
generic project page as fallback. -/
def remoteUrlPython (dep : String) (oracle : Remote) : String :=
  match oracle.pypi dep with
  | Fetched.ok d =>
    let urls0 : List String := if d.projectUrl != "" then [d.projectUrl] else []
    let docLabelled := d.projectUrls.filter
      (fun p => strContains (lowerStr p.1) "doc" || strContains (lowerStr p.1) "documentation")
    let urls1 := docLabelled.foldl (fun acc p => p.2 :: acc) urls0
    let urls2 := urls1 ++ (if d.homePage != "" then [d.homePage] else [])
    let urls3 := urls2 ++ (if d.docsUrl != "" then [d.docsUrl] else [])
    let urls4 := urls3 ++ (if d.packageUrl != "" then [d.packageUrl] else [])
    let urls5 := if urls4.isEmpty then ["https://pypi.org/project/" ++ dep ++ "/"] else urls4
    urls5.headD ""
  | _ => "https://pypi.org/project/" ++ dep ++ "/"

/-- JavaScript branch of `fetch_dependency_url` (lines 954-987). -/
def remoteUrlJs (dep : String) (oracle : Remote) : String :=
  match oracle.npm dep with
  | Fetched.ok d =>
    let urls0 : List String := if d.homepage != "" then [d.homepage] else []
    let urls1 := urls0 ++
      (match d.repository with
       | some (NpmRepository.dict (some u)) => [cleanGitUrl u]
       | some (NpmRepository.dict none) => []
       | some (NpmRepository.str s) => [s]
       | none => [])
    let urls2 := urls1 ++ ["https://www.npmjs.com/package/" ++ dep]
    urls2.headD ""
  | _ => "https://www.npmjs.com/package/" ++ dep

/-- Java branch of `fetch_dependency_url` (lines 989-1017).  A transport
exception reaches the `except` arm (search-page fallback); a non-200 or an
empty / URL-less result reaches the constructed artifact browse link. -/
def remoteUrlJava (dep : String) (oracle : Remote) : String :=
  if strContains dep ":" then
    let ga := splitMavenCoords dep
    match oracle.maven ga.1 ga.2 with
    | Fetched.exn => "https://mvnrepository.com/search?q=" ++ dep
    | Fetched.notFound => "https://mvnrepository.com/artifact/" ++ ga.1 ++ "/" ++ ga.2
    | Fetched.ok docs =>
      match docs.head? with
      | some doc =>
        if doc.homepage != "" then doc.homepage
        else if doc.urlField != "" then doc.urlField
        else if doc.downloadUrl != "" then doc.downloadUrl
        else "https://mvnrepository.com/artifact/" ++ ga.1 ++ "/" ++ ga.2
      | none => "https://mvnrepository.com/artifact/" ++ ga.1 ++ "/" ++ ga.2
  else "https://mvnrepository.com/search?q=" ++ dep

/-- The NuGet catalog leg of the .NET URL branch (lines 1044-1066), entered
when the flat-container request returned without usable URLs. -/
def dotnetCatalogUrl (dep : String) (oracle : Remote) : String :=
  match oracle.nugetIndex (lowerStr dep) with
  | Fetched.ok (some entry) =>
    let urls := (if entry.projectUrl != "" then [entry.projectUrl] else []) ++
      (match entry.repositoryUrl with | some u => [u] | none => [])
    match urls.head? with
    | some u => u
    | none => "https://www.nuget.org/packages/" ++ dep
  | _ => "https://www.nuget.org/packages/" ++ dep

/-- .NET branch of `fetch_dependency_url` (lines 1019-1071).  An exception in
the flat-container request jumps to the `except` arm (plain package-page
fallback); a non-200 or a URL-less payload falls through to the catalog. -/
def remoteUrlDotnet (dep ver : String) (oracle : Remote) : String :=
  match oracle.nugetPackageInfo (lowerStr dep) ver with
  | Fetched.exn => "https://www.nuget.org/packages/" ++ dep
  | Fetched.notFound => dotnetCatalogUrl dep oracle
  | Fetched.ok d =>
    let urls := (if d.projectUrl != "" then [d.projectUrl] else []) ++
      (if d.repositoryUrl != "" then [d.repositoryUrl] else []) ++
      (if d.licenseUrl != "" then [d.licenseUrl] else [])
    match urls.head? with
    | some u => u
    | none => dotnetCatalogUrl dep oracle

/-- The override check at the top of `fetch_dependency_url` (lines 896-907):
`if dependency_map:` (non-empty), key present, `documentation_url` truthy. -/
def overrideUrl (map : DepMap) (key : String) : Option String :=
  if map.isEmpty then none
  else
    match lookupA map key with
    | some row => if row.documentation_url != "" then some row.documentation_url else none
    | none => none

/-- `fetch_dependency_url` (lines 894-1074).  The boolean records whether
control passed the override check into the remote section (the rate-limit
sleep followed by at least one `requests.get`); an override hit with a
non-empty `documentation_url` returns before any remote activity. -/
def fetchDependencyUrl (dep : String) (eco : Ecosystem) (ver : String)
    (map : DepMap) (oracle : Remote) : String × Bool :=
  match overrideUrl map (lowerStr eco.key ++ ":" ++ lowerStr dep) with
  | some u => (u, false)
  | none =>
    (match eco with
     | Ecosystem.python => remoteUrlPython dep oracle
     | Ecosystem.javascript => remoteUrlJs dep oracle
     | Ecosystem.java => remoteUrlJava dep oracle
     | Ecosystem.dotnet => remoteUrlDotnet dep ver oracle, true)

/-! ### fetch_dependency_license (lines 696-891) -/

/-- The `project_urls` loop of the Python license branch (lines 730-737):
first entry whose URL mentions github or whose label mentions source, for
which the GitHub probe yields a license. -/
def pypiProjectUrlsGithub (d : PypiInfo) (oracle : Remote) : Option String :=
  firstSome
    (fun p =>
      if strContains (lowerStr p.2) "github" || strContains (lowerStr p.1) "source" then
        match extractGithubRepoFromUrl p.2 with
        | some gh => oracle.githubLicense gh
        | none => none
      else none)
    d.projectUrls

/-- Python branch of `fetch_dependency_license` (lines 714-747): direct
`license` field, else first `License ::` classifier (last `::`-segment,
stripped), else GitHub probes via `project_urls` and `home_page`; every
fall-through and every failure ends at the final `return 'Unknown'`. -/
def remoteLicensePython (dep : String) (oracle : Remote) : Option String :=
  match oracle.pypi dep with
  | Fetched.ok d =>
    if d.license != "" then some d.license
    else
      match d.classifiers.find? (fun c => startsWithS c "License ::") with
      | some c => some (trimS ((splitOnS c "::").getLastD c))
      | none =>
        match pypiProjectUrlsGithub d oracle with
        | some l => some l
        | none =>
          if strContains (lowerStr d.homePage) "github" then
            match extractGithubRepoFromUrl d.homePage with
            | some gh =>
              match oracle.githubLicense gh with
              | some l => some l
              | none => some "Unknown"
            | none => some "Unknown"
          else some "Unknown"
  | _ => some "Unknown"

/-- JavaScript branch of `fetch_dependency_license` (lines 749-768). -/
def remoteLicenseJs (dep : String) (oracle : Remote) : Option String :=
  match oracle.npm dep with
  | Fetched.ok d =>
    match d.license with
    | some s => some s
    | none =>
      match d.repository with
      | some (NpmRepository.dict (some u)) =>
        (match extractGithubRepoFromUrl u with
         | some gh =>
           match oracle.githubLicense gh with
           | some l => some l
           | none => some "Unknown"
         | none => some "Unknown")
      | _ => some "Unknown"
  | _ => some "Unknown"

/-- Java branch of `fetch_dependency_license` (lines 770-792).  When the top
document has no `license` but has an `scm` entry, the source passes the `scm`
dict itself to `extract_github_repo_from_url`, whose `re.search` raises
`TypeError`; the exception is caught and the function ends at
`return 'Unknown'` — so that arm is `"Unknown"` here. -/
def remoteLicenseJava (dep : String) (oracle : Remote) : Option String :=
  if strContains dep ":" then
    let ga := splitMavenCoords dep
    match oracle.maven ga.1 ga.2 with
    | Fetched.ok docs =>
      match docs.head? with
      | some doc =>
        match doc.license with
        | some l => some l
        | none => some "Unknown"
      | none => some "Unknown"
    | _ => some "Unknown"
  else some "Unknown"

/-- The `licenseUrl` leg of the .NET catalog branch (lines 828-854): keyword
scan, then — for GitHub-hosted license files — a raw-content fetch classified
by `identify_license_from_content` (returning Python `None` on empty
content).  `none` means the source fell through without returning. -/
def dotnetLicenseUrlCheck (licenseUrl : String) (oracle : Remote) :
    Option (Option String) :=
  match licenseFromUrlKeywords licenseUrl with
  | some l => some (some l)
  | none =>
    if strContains licenseUrl "raw.githubusercontent.com" ||
        (strContains licenseUrl "github.com" && strContains licenseUrl "/blob/") then
      let lu := if strContains licenseUrl "/blob/"
        then replaceS licenseUrl "/blob/" "/raw/" else licenseUrl
      match oracle.httpText lu with
      | Fetched.ok t => some (identifyLicenseFromContent t)
      | _ => none
    else none

/-- The flat-container fallback of the .NET license branch (lines 856-887).
`none` means the try-block passed without returning (including its own
swallowed exception). -/
def dotnetPackageInfoLicense (dep ver : String) (oracle : Remote) :
    Option (Option String) :=
  match oracle.nugetPackageInfo (lowerStr dep) ver with
  | Fetched.ok d =>
    match d.license with
    | some l => some (some l)
    | none =>
      match d.licenseExpression with
      | some l => some (some l)
      | none =>
        if d.licenseUrl != "" then
          match licenseFromUrlKeywords d.licenseUrl with
          | some l => some (some l)
          | none => none
        else none
  | _ => none

/-- Lines 798-804: extract a GitHub repo URL from a documentation URL and
probe it for a license. -/
def githubProbe (oracle : Remote) (url : String) : Option String :=
  match extractGithubRepoFromUrl url with
  | some gh => oracle.githubLicense gh
  | none => none

/-- The flat-container fallback as the .NET license branch finishes with it
(lines 856-891): a pass-through ends at `return 'Unknown'`. -/
def dotnetFinishLicense (dep ver : String) (oracle : Remote) : Option String :=
  match dotnetPackageInfoLicense dep ver oracle with
  | some v => v
  | none => some "Unknown"

/-- The catalog leg of the .NET license branch (lines 806-891).  An exception
in the catalog request reaches the outer `except` and goes straight to
`return 'Unknown'`, skipping the flat-container leg; a non-200 or a payload
without usable license data falls through to the flat-container fallback. -/
def dotnetRegistrationLicense (dep ver : String) (oracle : Remote) :
    Option String :=
  match oracle.nugetIndex (lowerStr dep) with
  | Fetched.exn => some "Unknown"
  | Fetched.notFound => dotnetFinishLicense dep ver oracle
  | Fetched.ok none => dotnetFinishLicense dep ver oracle
  | Fetched.ok (some entry) =>
    match entry.license with
    | some l => some l
    | none =>
      match entry.licenseExpression with
      | some l => some l
      | none =>
        if entry.licenseUrl != "" then
          match dotnetLicenseUrlCheck entry.licenseUrl oracle with
          | some v => v
          | none => dotnetFinishLicense dep ver oracle
        else dotnetFinishLicense dep ver oracle

/-- .NET branch of `fetch_dependency_license` (lines 794-889): first the
documentation URL is resolved (through the override table, recursively) and
probed for a GitHub license; then the catalog entry; then the flat-container
payload. -/
def remoteLicenseDotnet (dep ver : String) (map : DepMap) (oracle : Remote) :
    Option String :=
  match githubProbe oracle ((fetchDependencyUrl dep Ecosystem.dotnet ver map oracle).1) with
  | some l => some l
  | none => dotnetRegistrationLicense dep ver oracle

/-- The override check at the top of `fetch_dependency_license` (lines
698-709): `if dependency_map:` (non-empty), key present, `license` truthy;
a hit is returned with the `"! "` marker. -/
def overrideLicense (map : DepMap) (key : String) : Option String :=
  if map.isEmpty then none
  else
    match lookupA map key with
    | some row => if row.license != "" then some ("! " ++ row.license) else none
    | none => none

/-- `fetch_dependency_license` (lines 696-891).  The result is the Python
return value (`none` models Python `None`); the boolean records whether
control passed the override check into the remote section.  An override hit
with a non-empty `license` returns `"! "`-prefixed before any remote
activity; an entry with an empty `license` falls through to the remote
chain. -/
def fetchDependencyLicense (dep : String) (eco : Ecosystem) (ver : String)
    (map : DepMap) (oracle : Remote) : Option String × Bool :=
  match overrideLicense map (lowerStr eco.key ++ ":" ++ lowerStr dep) with
  | some l => (some l, false)
  | none =>
    (match eco with
     | Ecosystem.python => remoteLicensePython dep oracle
     | Ecosystem.javascript => remoteLicenseJs dep oracle
     | Ecosystem.java => remoteLicenseJava dep oracle
     | Ecosystem.dotnet => remoteLicenseDotnet dep ver map oracle, true)

/-- The per-ecosystem registry fallback URL that each branch of
`fetch_dependency_url` returns when its request raises (lines 952, 987,
1017, 1071). -/
def registryFallbackUrl (eco : Ecosystem) (dep : String) : String :=
  match eco with
  | Ecosystem.python => "https://pypi.org/project/" ++ dep ++ "/"
  | Ecosystem.javascript => "https://www.npmjs.com/package/" ++ dep
  | Ecosystem.java => "https://mvnrepository.com/search?q=" ++ dep
  | Ecosystem.dotnet => "https://www.nuget.org/packages/" ++ dep

/-- The per-ecosystem URL each branch of `fetch_dependency_url` returns when
the registry answers with a non-200 status (the 404 case): the same registry
page for Python / JavaScript / .NET (lines 943-947, 980-982, 1071), but for
Java a constructed artifact browse link when the name has a `group:artifact`
form (lines 1005-1010), else the search page (line 1012). -/
def notFoundFallbackUrl (eco : Ecosystem) (dep : String) : String :=
  match eco with
  | Ecosystem.python => "https://pypi.org/project/" ++ dep ++ "/"
  | Ecosystem.javascript => "https://www.npmjs.com/package/" ++ dep
  | Ecosystem.java =>
    if strContains dep ":" then
      "https://mvnrepository.com/artifact/" ++ (splitMavenCoords dep).1 ++ "/"
        ++ (splitMavenCoords dep).2
    else "https://mvnrepository.com/search?q=" ++ dep
  | Ecosystem.dotnet => "https://www.nuget.org/packages/" ++ dep

/-! ### Extractors -/

/-- The character class `[a-zA-Z0-9_.-]` of the requirement-name pattern. -/
def reqNameChar (c : Char) : Bool := c.isAlphanum || c = '_' || c = '.' || c = '-'

/-- `re.match(r'([a-zA-Z0-9_.-]+)([=<>~!].+)?', line)` (line 326): group 1 is
the maximal leading run of name characters (the match fails when it is
empty); group 2 participates exactly when the remainder starts with one of
`=<>~!` and has at least one further character (`.+`). -/
def reqMatch (l : String) : Option (String × Option String) :=
  let name := l.data.takeWhile reqNameChar
  if name.isEmpty then none
  else
    let rest := l.data.drop name.length
    let verOk : Bool :=
      match rest with
      | c :: _ :: _ => c == '=' || c == '<' || c == '>' || c == '~' || c == '!'
      | _ => false
    some (⟨name⟩, if verOk then some ⟨rest⟩ else none)

/-- `version.strip() if version else 'latest'` / `version or 'latest'`:
Python-truthiness version defaulting (`None` and `""` both give the
sentinel). -/
def orLatestTrim (o : Option String) : String :=
  match o with
  | none => "latest"
  | some v => if v = "" then "latest" else trimS v

/-- `version or 'latest'` without stripping (used by the XML extractors). -/
def orLatest (o : Option String) : String :=
  match o with
  | none => "latest"
  | some v => if v = "" then "latest" else v

/-- One line of a `requirements.txt` as processed by
`extract_python_dependencies` (lines 322-331): strip, skip empty lines and
comments, match the name/version pattern, default the version to
`"latest"`. -/
def reqLineEntry (line : String) : Option (String × String) :=
  if trimS line != "" && !(startsWithS (trimS line) "#") then
    match reqMatch (trimS line) with
    | some pv => some (trimS pv.1, orLatestTrim pv.2)
    | none => none
  else none

/-- `re.search(r'([a-zA-Z0-9_.-]+):([a-zA-Z0-9_.-]+):([a-zA-Z0-9_.-]+)', dep)`
(line 472) for inputs whose colon-separated segments are plain name tokens:
the first three segments when all are non-empty name-character runs. -/
def gavSearch (s : String) : Option (String × String × String) :=
  match splitOnS s ":" with
  | g :: a :: v :: _ =>
    if g != "" && a != "" && v != "" &&
        g.data.all reqNameChar && a.data.all reqNameChar && v.data.all reqNameChar then
      some (g, a, v)
    else none
  | _ => none

/-- Processing of one Gradle regex match in `extract_java_dependencies`
(lines 466-484).  A match is the tuple `re.findall` returns: two groups for
the simple-string patterns, four for the `group:/name:/version:` pattern —
where a non-participating optional version group is the empty string, so
`match[3]` is `""` (and `len(match) > 3` holds) for an unpinned
group/name declaration. -/
def gradleMatchEntry (m : List String) : Option (String × String) :=
  if m.length = 2 then
    let dependency := m.getD 1 ""
    match gavSearch dependency with
    | some gav => some (gav.1 ++ ":" ++ gav.2.1, gav.2.2)
    | none => some (dependency, "latest")
  else if 3 ≤ m.length then
    some ((m.getD 1 "") ++ ":" ++ (m.getD 2 ""),
      if 3 < m.length then m.getD 3 "" else "latest")
  else none

/-- One `<PackageReference>` of a `.csproj` as processed by
`extract_dotnet_dependencies` (lines 589-600): the `Include` attribute must
be present and truthy; a missing or empty `Version` defaults to
`"latest"`. -/
def csprojPackageEntry (includeAttr versionAttr : Option String) :
    Option (String × String) :=
  match includeAttr with
  | some pkg => if pkg != "" then some (pkg, orLatest versionAttr) else none
  | none => none

/-! ### process_repositories (lines 1115-1252) -/

/-- What one repository contributes to the pipeline once its file tree is
available: the clone outcome, the detected types, and the per-ecosystem
extracted dependency dict (`name -> declared version`, insertion-ordered).
File-tree walking and manifest parsing sit at this boundary; the extractors
above are verified separately. -/
structure RepoData where
  url : String
  cloneOk : Bool
  types : List Ecosystem
  deps : Ecosystem → List (String × String)
  repoLicense : String
  description : String

/-- Output of the per-ecosystem resolution loop: the `dependency_licenses`
and `dependency_urls` dict fragments, and how many dependencies dispatched
remote activity. -/
structure Resolved where
  licenses : List (String × Option String)
  urls : List (String × String)
  remoteCount : Nat

/-- The per-ecosystem resolution loop of `process_repositories` (lines
1183-1195): walk the extracted dict with a counter, `break` once
`count >= 10`, otherwise fetch license and URL (override table first) and
record them under `f"{dep_type}:{dep}"`. -/
def resolveDeps (eco : Ecosystem) (map : DepMap) (oracle : Remote) :
    List (String × String) → Nat → Resolved
  | [], _ => ⟨[], [], 0⟩
  | dv :: rest, count =>
    if 10 ≤ count then ⟨[], [], 0⟩
    else
      let lic := fetchDependencyLicense dv.1 eco dv.2 map oracle
      let url := fetchDependencyUrl dv.1 eco dv.2 map oracle
      let r := resolveDeps eco map oracle rest (count + 1)
      ⟨(eco.key ++ ":" ++ dv.1, lic.1) :: r.licenses,
       (eco.key ++ ":" ++ dv.1, url.1) :: r.urls,
       (if lic.2 || url.2 then 1 else 0) + r.remoteCount⟩

/-- One entry of the `results` list built by `process_repositories`. -/
structure RepoResult where
  repository : String
  types : List Ecosystem
  repoLicense : String
  description : String
  dependencies : List (Ecosystem × List (String × String))
  depLicenses : List (String × Option String)
  depUrls : List (String × String)
  dispatches : List (Ecosystem × Nat)

/-- The fixed order in which `process_repositories` populates the
`dependencies` dict (lines 1156-1174). -/
def ecosystemOrder : List Ecosystem :=
  [Ecosystem.python, Ecosystem.javascript, Ecosystem.java, Ecosystem.dotnet]

/-- The ecosystems whose dependency dicts a repository gets, in the fixed
population order. -/
def presentEcosystems (data : RepoData) : List Ecosystem :=
  ecosystemOrder.filter (fun e => data.types.contains e)

/-- The `results` entry built for one successfully cloned repository
(lines 1146-1205). -/
def repoResultFor (map : DepMap) (oracle : Remote) (data : RepoData) :
    RepoResult :=
  { repository := data.url
    types := data.types
    repoLicense := data.repoLicense
    description := data.description
    dependencies := (presentEcosystems data).map (fun e => (e, data.deps e))
    depLicenses := concatMap
      (fun e => (resolveDeps e map oracle (data.deps e) 0).licenses)
      (presentEcosystems data)
    depUrls := concatMap
      (fun e => (resolveDeps e map oracle (data.deps e) 0).urls)
      (presentEcosystems data)
    dispatches := (presentEcosystems data).map
      (fun e => (e, (resolveDeps e map oracle (data.deps e) 0).remoteCount)) }

/-- The per-repository body of `process_repositories` (lines 1139-1205): a
failed clone contributes nothing to `results`; otherwise the dependency
dicts of the detected ecosystems are built in fixed order and resolved under
the per-ecosystem budget. -/
def processRepo (map : DepMap) (oracle : Remote) (data : RepoData) :
    Option RepoResult :=
  if data.cloneOk then some (repoResultFor map oracle data) else none

/-- `process_repositories` (lines 1115-1252): load-and-normalise the override
table once, then analyse each repository in turn, skipping clone failures. -/
def processRepositories (repos : List RepoData) (map : DepMap)
    (oracle : Remote) : List RepoResult :=
  repos.filterMap (processRepo (normalizeMapProcess map) oracle)

/-! ### write_results_to_csv (lines 1255-1308) -/

/-- One row of `dependency_report.csv`. -/
structure CsvRow where
  repository : String
  typesCell : String
  licenseCell : String
  dependency : String
  dependencyType : String
  version : String
  dependencyLicense : String
  documentationUrl : String
deriving DecidableEq, Repr

/-- Python's `csv` module writes `None` as the empty field. -/
def renderCell : Option String → String
  | none => ""
  | some s => s

/-- `repo_result['dependency_licenses'].get(dep_key, 'Unknown')`. -/
def storedLicense (r : RepoResult) (key : String) : Option String :=
  match lookupA r.depLicenses key with
  | some v => v
  | none => some "Unknown"

/-- `repo_result['dependency_urls'].get(dep_key, '')`. -/
def storedUrl (r : RepoResult) (key : String) : String :=
  match lookupA r.depUrls key with
  | some v => v
  | none => ""

/-- The row written for one dependency (lines 1280-1308): the stored
license/URL (defaults `'Unknown'` / `''` via `.get`), then the reloaded
mapping applied as a final override. -/
def csvRowFor (map2 : DepMap) (r : RepoResult) (eco : Ecosystem)
    (dv : String × String) : CsvRow :=
  { repository := r.repository
    typesCell := joinS ", " (r.types.map Ecosystem.key)
    licenseCell := r.repoLicense
    dependency := dv.1
    dependencyType := eco.key
    version := dv.2
    dependencyLicense := renderCell
      (match lookupA map2 (lowerStr eco.key ++ ":" ++ lowerStr dv.1) with
       | some row =>
         if row.license != "" then some ("! " ++ row.license)
         else storedLicense r (eco.key ++ ":" ++ dv.1)
       | none => storedLicense r (eco.key ++ ":" ++ dv.1))
    documentationUrl :=
      match lookupA map2 (lowerStr eco.key ++ ":" ++ lowerStr dv.1) with
      | some row =>
        if row.documentation_url != "" then row.documentation_url
        else storedUrl r (eco.key ++ ":" ++ dv.1)
      | none => storedUrl r (eco.key ++ ":" ++ dv.1) }

/-- The rows one repository contributes: one per dependency of each
ecosystem, nothing else (in particular no row at all when every dict is
empty). -/
def csvRowsFor (map2 : DepMap) (r : RepoResult) : List CsvRow :=
  concatMap (fun p => p.2.map (csvRowFor map2 r p.1)) r.dependencies

/-- `write_results_to_csv` (lines 1255-1308), as the list of data rows it
writes after the header: the mapping file is re-loaded (modelled by the
`map2raw` argument) and re-normalised, then every dependency of every
repository yields exactly one row. -/
def writeResultsToCsv (results : List RepoResult) (map2raw : DepMap) :
    List CsvRow :=
  concatMap (csvRowsFor (normalizeMapCsv map2raw)) results

/-! ### generate_missing_dependency_mapping (lines 1380-1422) -/

/-- The worklist entry one dependency generates (lines 1389-1406), when its
license is `'Unknown'` or its URL is empty or a Google-search fallback.
The `license` field is emptied for `'Unknown'` (a Python `None` license is
kept and later rendered as an empty CSV field, hence `renderCell`); the
`documentation_url` field is emptied for Google-search URLs. -/
def worklistEntryFor (r : RepoResult) (eco : Ecosystem) (dv : String × String) :
    Option (String × MappingRow) :=
  if storedLicense r (eco.key ++ ":" ++ dv.1) = some "Unknown" ∨
      storedUrl r (eco.key ++ ":" ++ dv.1) = "" ∨
      startsWithS (storedUrl r (eco.key ++ ":" ++ dv.1))
        "https://www.google.com/search" = true then
    some (eco.key ++ ":" ++ dv.1,
      { dependency_name := dv.1
        dependency_type := eco.key
        version := dv.2
        license :=
          if storedLicense r (eco.key ++ ":" ++ dv.1) = some "Unknown" then ""
          else renderCell (storedLicense r (eco.key ++ ":" ++ dv.1))
        documentation_url :=
          if startsWithS (storedUrl r (eco.key ++ ":" ++ dv.1))
              "https://www.google.com/search" = true then ""
          else storedUrl r (eco.key ++ ":" ++ dv.1) })
  else none

/-- First-wins keyed insertion into the `unknown_deps` dict (`if dep_key not
in unknown_deps:`), preserving insertion order. -/
def worklistAdd (acc : List (String × MappingRow))
    (e : Option (String × MappingRow)) : List (String × MappingRow) :=
  match e with
  | none => acc
  | some kv => if (lookupA acc kv.1).isSome then acc else acc ++ [kv]

/-- The nested iteration of `generate_missing_dependency_mapping`, flattened:
every `(repository, ecosystem, dependency)` triple in report order. -/
def allDepEntries (results : List RepoResult) :
    List (RepoResult × Ecosystem × String × String) :=
  concatMap
    (fun r => concatMap (fun p => p.2.map (fun dv => (r, p.1, dv))) r.dependencies)
    results

/-- The `unknown_deps` dict of `generate_missing_dependency_mapping`. -/
def worklistPairs (results : List RepoResult) : List (String × MappingRow) :=
  (allDepEntries results).foldl
    (fun acc e => worklistAdd acc (worklistEntryFor e.1 e.2.1 e.2.2)) []

/-- `generate_missing_dependency_mapping` (lines 1380-1422), as the list of
CSV rows it writes. -/
def generateMissingDependencyMapping (results : List RepoResult) :
    List MappingRow :=
  (worklistPairs results).map (fun p => p.2)

/-! ### main (lines 1425-1464), as a trace of override-table loads -/

/-- Observable events of one run: an override-CSV load
(`load_dependency_mapping()`) or one remote dependency resolution. -/
inductive Ev where
  | load
  | remote
deriving DecidableEq, BEq, Repr

/-- Number of override-CSV loads in a trace. -/
def countLoads (t : List Ev) : Nat := (t.filter (fun e => e == Ev.load)).length

/-- Trace of `process_repositories`: one load at entry (line 1121), then the
remote resolutions of every repository. -/
def processRepositoriesTrace (repos : List RepoData) (map : DepMap)
    (oracle : Remote) : List Ev :=
  Ev.load ::
    concatMap
      (fun r => concatMap (fun p => List.replicate p.2 Ev.remote) r.dispatches)
      (processRepositories repos map oracle)

/-- Trace of `write_results_to_csv`: it re-loads the mapping file at entry
(line 1258). -/
def writeResultsToCsvTrace : List Ev := [Ev.load]

/-- Trace of `generate_markdown_report`: it re-loads the mapping file at
entry (line 1314). -/
def generateMarkdownReportTrace : List Ev := [Ev.load]

/-- Trace of `generate_missing_dependency_mapping`: it performs no load. -/
def generateMissingMappingTrace : List Ev := []

/-- Trace of `main` (lines 1425-1464): process, then the CSV report, the
markdown report and the missing-mapping worklist. -/
def mainTrace (repos : List RepoData) (map : DepMap) (oracle : Remote) :
    List Ev :=
  processRepositoriesTrace repos map oracle ++ writeResultsToCsvTrace ++
    generateMarkdownReportTrace ++ generateMissingMappingTrace

/-! ### Concrete run configurations used in the analysis below -/

/-- A remote world in which every registry request returns a non-200 status
(the 404 scenario) and GitHub probes find nothing. -/
def notFoundRemote : Remote :=
  { pypi := fun _ => Fetched.notFound
    npm := fun _ => Fetched.notFound
    maven := fun _ _ => Fetched.notFound
    nugetIndex := fun _ => Fetched.notFound
    nugetPackageInfo := fun _ _ => Fetched.notFound
    httpText := fun _ => Fetched.notFound
    githubLicense := fun _ => none }

/-- Total number of extracted dependencies across a result set: what the CSV
report must account for row by row. -/
def totalDepCount (results : List RepoResult) : Nat :=
  (results.map (fun r => (r.dependencies.map (fun p => p.2.length)).sum)).sum

/-- An extracted dependency dict with eleven entries: one more than the
per-ecosystem resolution budget. -/
def elevenDeps : List (String × String) :=
  [("a", "1"), ("b", "1"), ("c", "1"), ("d", "1"), ("e", "1"), ("f", "1"),
   ("g", "1"), ("h", "1"), ("i", "1"), ("j", "1"), ("k", "1")]

/-- An override row with both fields filled in, as a curator would write it. -/
def rowOverride : MappingRow :=
  { dependency_name := "foo", dependency_type := "python", version := "1.0",
    license := "MIT", documentation_url := "https://example.org/foo" }

/-- An override row whose `license` field is empty — exactly the shape the
machine-generated worklist produces. -/
def rowEmptyLicense : MappingRow :=
  { dependency_name := "foo", dependency_type := "python", version := "1.0",
    license := "", documentation_url := "https://example.org/foo" }

/-- A cloned Python repository with a single extracted dependency `f`. -/
def repoPy : RepoData :=
  { url := "https://github.com/o/r"
    cloneOk := true
    types := [Ecosystem.python]
    deps := fun e => match e with
      | Ecosystem.python => [("f", "latest")]
      | _ => []
    repoLicense := "MIT"
    description := "d" }

/-- The worklist row the `repoPy` run under a dead network produces. -/
def rowWorklist : MappingRow :=
  { dependency_name := "f", dependency_type := "python", version := "latest",
    license := "", documentation_url := "https://pypi.org/project/f/" }

/-- A cloned repository in which extraction yields zero dependencies. -/
def repoEmpty : RepoData :=
  { url := "https://github.com/o/empty"
    cloneOk := true
    types := []
    deps := fun _ => []
    repoLicense := "MIT"
    description := "d" }


end DepAnalyzer

namespace InfraAnalyzer

/-! ### infrastructure.py -/

/-- `InfraResource` (line 34-36): a frozen dataclass compared structurally on
all five fields. -/
structure InfraResource where
  name : String
  resource_type : String
  language : String
  source_file : String
  size : String
deriving DecidableEq, Repr

/-- Strict lexicographic comparison of character lists by code point, the
order Python uses on strings. -/
def lexLtL : List Char → List Char → Bool
  | [], [] => false
  | [], _ :: _ => true
  | _ :: _, [] => false
  | a :: as, b :: bs => if a = b then lexLtL as bs else decide (a.toNat < b.toNat)

/-- Reflexive lexicographic comparison of character lists. -/
def lexLeL : List Char → List Char → Bool
  | [], _ => true
  | _ :: _, [] => false
  | a :: as, b :: bs => if a = b then lexLeL as bs else decide (a.toNat < b.toNat)

/-- The sort key comparison of `analyze_repository` line 155: Python tuple
comparison on `(r.language, r.resource_type, r.name)`. -/
def resLeB (a b : InfraResource) : Bool :=
  if a.language = b.language then
    if a.resource_type = b.resource_type then lexLeL a.name.data b.name.data
    else lexLtL a.resource_type.data b.resource_type.data
  else lexLtL a.language.data b.language.data

/-- The comparison `sorted` uses on resources, as a relation. -/
def resLe (a b : InfraResource) : Prop := resLeB a b = true

instance : DecidableRel resLe :=
  fun a b => inferInstanceAs (Decidable (resLeB a b = true))

/-- `sorted(list(set(found_resources)), key=...)` (line 155): structural
deduplication followed by a sort on `(language, resource_type, name)`. -/
def sortResources (found : List InfraResource) : List InfraResource :=
  List.insertionSort resLe found.dedup

/-- The final `report.resources` of `analyze_repository`: line 155 assigns
the sorted deduplicated file-scan resources, and lines 158-166 then `extend`
that list with the resources parsed out of `azure/cli` workflow inline
scripts, without another deduplication or sort.  `wfExtras` is the
concatenated output of those `analyze_shell_content` calls. -/
def assembleResources (found wfExtras : List InfraResource) :
    List InfraResource :=
  sortResources found ++ wfExtras

/-- State `clone_repo` (lines 130-136) runs against: whether the target
directory already exists (even empty), and whether `git clone` would
succeed. -/
structure CloneEnv where
  targetExists : Bool
  gitCloneOk : Bool
deriving DecidableEq, Repr

/-- Result of `clone_repo`: its boolean return value and whether a `git`
subprocess was spawned. -/
structure CloneOutcome where
  success : Bool
  gitInvoked : Bool
deriving DecidableEq, Repr

/-- `clone_repo` (lines 130-136): `if target_dir.exists(): return True`
before any subprocess; otherwise the outcome is git's. -/
def cloneRepo (env : CloneEnv) : CloneOutcome :=
  if env.targetExists then ⟨true, false⟩
  else ⟨env.gitCloneOk, true⟩

/-- `analyze_repository` (lines 138-146) raises `RuntimeError` exactly when
`clone_repo` returns `False`; otherwise the analysis proceeds over whatever
the directory contains. -/
def analyzeRepositoryProceeds (env : CloneEnv) : Bool := (cloneRepo env).success

/-- A repository report, reduced to its identity for the scheduler model. -/
structure InfraReport where
  url : String
  name : String
deriving DecidableEq, Repr

/-- `asyncio.gather(*tasks, return_exceptions=True)` (line 248): one outcome
per repository, in task order; a failed analysis is its exception, not a
cancellation of the others. -/
def gatherResults (analyze : String → Except String InfraReport)
    (repos : List String) : List (Except String InfraReport) :=
  repos.map analyze

/-- `successful_reports = [r for r in results if not isinstance(r, Exception)]`
(line 249). -/
def successfulReports (results : List (Except String InfraReport)) :
    List InfraReport :=
  results.filterMap (fun r => match r with | .ok a => some a | .error _ => none)


/-- A workflow-script resource that sorts before `resScan` on the
`(language, resource_type, name)` key. -/
def resActions : InfraResource :=
  { name := "a", resource_type := "az group create", language := "GitHub Actions",
    source_file := "wf.yml (Job: deploy)", size := "N/A" }

/-- A file-scan resource. -/
def resScan : InfraResource :=
  { name := "b", resource_type := "azure.storage.account", language := "Python",
    source_file := "main.py", size := "N/A" }

/-- A demonstration analysis outcome map: one repository whose clone fails,
two that succeed. -/
def demoAnalyze (u : String) : Except String InfraReport :=
  if u = "https://github.com/o/bad" then Except.error "clone failed"
  else Except.ok { url := u, name := u }

/-- The demonstration repository list. -/
def demoRepos : List String :=
  ["https://github.com/o/a", "https://github.com/o/bad", "https://github.com/o/b"]

end InfraAnalyzer

namespace InfraAnalyzer

/-! ### Order lemmas for the resource sort -/

theorem lexLtL_irrefl : ∀ x, lexLtL x x = false
  | [] => rfl
  | _ :: as => by simp [lexLtL, lexLtL_irrefl as]

theorem lexLeL_refl : ∀ x, lexLeL x x = true
  | [] => rfl
  | _ :: as => by simp [lexLeL, lexLeL_refl as]

theorem lexLtL_trans :
    ∀ {x y z}, lexLtL x y = true → lexLtL y z = true → lexLtL x z = true
  | [], [], _, h1, _ => by simp [lexLtL] at h1
  | [], _ :: _, [], _, h2 => by simp [lexLtL] at h2
  | [], _ :: _, _ :: _, _, _ => rfl
  | _ :: _, [], _, h1, _ => by simp [lexLtL] at h1
  | _ :: _, _ :: _, [], _, h2 => by simp [lexLtL] at h2
  | a :: as, b :: bs, c :: cs, h1, h2 => by
    simp only [lexLtL] at h1 h2 ⊢
    by_cases hab : a = b
    · subst hab
      rw [if_pos rfl] at h1
      by_cases hac : a = c
      · subst hac
        rw [if_pos rfl] at h2 ⊢
        exact lexLtL_trans h1 h2
      · rwa [if_neg hac] at h2 ⊢
    · rw [if_neg hab] at h1
      by_cases hbc : b = c
      · subst hbc
        rwa [if_neg hab]
      · rw [if_neg hbc] at h2
        have h1n := of_decide_eq_true h1
        have h2n := of_decide_eq_true h2
        by_cases hac : a = c
        · subst hac
          exact absurd (Nat.lt_trans h1n h2n) (Nat.lt_irrefl _)
        · rw [if_neg hac]
          exact decide_eq_true (Nat.lt_trans h1n h2n)

theorem lexLeL_trans :
    ∀ {x y z}, lexLeL x y = true → lexLeL y z = true → lexLeL x z = true
  | [], _, _, _, _ => rfl
  | _ :: _, [], _, h1, _ => by simp [lexLeL] at h1
  | _ :: _, _ :: _, [], _, h2 => by simp [lexLeL] at h2
  | a :: as, b :: bs, c :: cs, h1, h2 => by
    simp only [lexLeL] at h1 h2 ⊢
    by_cases hab : a = b
    · subst hab
      rw [if_pos rfl] at h1
      by_cases hac : a = c
      · subst hac
        rw [if_pos rfl] at h2 ⊢
        exact lexLeL_trans h1 h2
      · rwa [if_neg hac] at h2 ⊢
    · rw [if_neg hab] at h1
      have h1n := of_decide_eq_true h1
      by_cases hbc : b = c
      · subst hbc
        rwa [if_neg hab]
      · rw [if_neg hbc] at h2
        have h2n := of_decide_eq_true h2
        by_cases hac : a = c
        · subst hac
          exact absurd (Nat.lt_trans h1n h2n) (Nat.lt_irrefl _)
        · rw [if_neg hac]
          exact decide_eq_true (Nat.lt_trans h1n h2n)

theorem lexLtL_total_of_ne :
    ∀ {x y}, x ≠ y → (lexLtL x y || lexLtL y x) = true
  | [], [], h => absurd rfl h
  | [], _ :: _, _ => by simp [lexLtL]
  | _ :: _, [], _ => by simp [lexLtL]
  | a :: as, b :: bs, h => by
    by_cases hab : a = b
    · subst hab
      have hne : as ≠ bs := fun he => h (by rw [he])
      simp only [lexLtL, if_pos rfl]
      exact lexLtL_total_of_ne hne
    · have hv : a.toNat ≠ b.toNat := fun he =>
        hab (Char.ext (UInt32.ext he))
      simp only [lexLtL, if_neg hab, if_neg (Ne.symm hab)]
      rcases Nat.lt_or_ge a.toNat b.toNat with hlt | hge
      · simp [hlt]
      · have : b.toNat < a.toNat := Nat.lt_of_le_of_ne hge (Ne.symm hv)
        simp [this]

theorem lexLeL_of_lt : ∀ {x y}, lexLtL x y = true → lexLeL x y = true
  | [], _, _ => rfl
  | _ :: _, [], h => by simp [lexLtL] at h
  | a :: as, b :: bs, h => by
    simp only [lexLtL] at h
    simp only [lexLeL]
    by_cases hab : a = b
    · subst hab
      rw [if_pos rfl] at h ⊢
      exact lexLeL_of_lt h
    · rwa [if_neg hab] at h ⊢

theorem resLeB_total (a b : InfraResource) :
    resLeB a b = true ∨ resLeB b a = true := by
  unfold resLeB
  by_cases h1 : a.language = b.language
  · rw [if_pos h1, if_pos h1.symm]
    by_cases h2 : a.resource_type = b.resource_type
    · rw [if_pos h2, if_pos h2.symm]
      by_cases h3 : a.name.data = b.name.data
      · left; rw [h3]; exact lexLeL_refl _
      · rcases Bool.or_eq_true_iff.mp (lexLtL_total_of_ne h3) with h | h
        · exact Or.inl (lexLeL_of_lt h)
        · exact Or.inr (lexLeL_of_lt h)
    · rw [if_neg h2, if_neg (fun he => h2 he.symm)]
      have hne : a.resource_type.data ≠ b.resource_type.data := fun he =>
        h2 (String.ext he)
      rcases Bool.or_eq_true_iff.mp (lexLtL_total_of_ne hne) with h | h
      · exact Or.inl h
      · exact Or.inr h
  · rw [if_neg h1, if_neg (fun he => h1 he.symm)]
    have hne : a.language.data ≠ b.language.data := fun he =>
      h1 (String.ext he)
    rcases Bool.or_eq_true_iff.mp (lexLtL_total_of_ne hne) with h | h
    · exact Or.inl h
    · exact Or.inr h

theorem resLeB_trans {a b c : InfraResource}
    (h1 : resLeB a b = true) (h2 : resLeB b c = true) : resLeB a c = true := by
  unfold resLeB at h1 h2 ⊢
  by_cases hab : a.language = b.language
  · rw [if_pos hab] at h1
    by_cases hbc : b.language = c.language
    · rw [if_pos hbc] at h2
      rw [if_pos (hab.trans hbc)]
      by_cases tab : a.resource_type = b.resource_type
      · rw [if_pos tab] at h1
        by_cases tbc : b.resource_type = c.resource_type
        · rw [if_pos tbc] at h2
          rw [if_pos (tab.trans tbc)]
          exact lexLeL_trans h1 h2
        · rw [if_neg tbc] at h2
          rw [if_neg (tab ▸ tbc), tab]
          exact h2
      · rw [if_neg tab] at h1
        by_cases tbc : b.resource_type = c.resource_type
        · rw [if_neg (tbc ▸ tab), ← tbc]
          exact h1
        · rw [if_neg tbc] at h2
          have hlt := lexLtL_trans h1 h2
          by_cases tac : a.resource_type = c.resource_type
          · exfalso
            rw [tac] at hlt
            rw [lexLtL_irrefl] at hlt
            exact Bool.false_ne_true hlt
          · rw [if_neg tac]
            exact hlt
    · rw [if_neg hbc] at h2
      rw [if_neg (hab ▸ hbc), hab]
      exact h2
  · rw [if_neg hab] at h1
    by_cases hbc : b.language = c.language
    · rw [if_neg (hbc ▸ hab), ← hbc]
      exact h1
    · rw [if_neg hbc] at h2
      have hlt := lexLtL_trans h1 h2
      by_cases hac : a.language = c.language
      · exfalso
        rw [hac] at hlt
        rw [lexLtL_irrefl] at hlt
        exact Bool.false_ne_true hlt
      · rw [if_neg hac]
        exact hlt

end InfraAnalyzer

namespace DepAnalyzer

/-! ### Supporting lemmas -/

theorem string_append_data (s t : String) : (s ++ t).data = s.data ++ t.data := rfl

theorem append_ne_empty_left {s t : String} (h : s ≠ "") : s ++ t ≠ "" := by
  intro he
  have hd : s.data ++ t.data = ([] : List Char) := by
    have h2 := congrArg String.data he
    rwa [string_append_data] at h2
  exact h (String.ext (List.append_eq_nil.mp hd).1)

theorem lowerStr_append (s t : String) : lowerStr (s ++ t) = lowerStr s ++ lowerStr t := by
  unfold lowerStr
  apply String.ext
  rw [string_append_data]
  exact List.map_append _ _ _

theorem mem_concatMap_of {α β : Type} {f : α → List β} {a : α} {b : β} :
    ∀ {l : List α}, a ∈ l → b ∈ f a → b ∈ concatMap f l := by
  intro l
  induction l with
  | nil => intro h; exact absurd h (List.not_mem_nil a)
  | cons x xs ih =>
    intro ha hb
    rcases List.mem_cons.mp ha with h | h
    · subst h; exact List.mem_append.mpr (Or.inl hb)
    · exact List.mem_append.mpr (Or.inr (ih h hb))

theorem exists_of_mem_concatMap {α β : Type} {f : α → List β} {b : β} :
    ∀ {l : List α}, b ∈ concatMap f l → ∃ a, a ∈ l ∧ b ∈ f a := by
  intro l
  induction l with
  | nil => intro h; exact absurd h (List.not_mem_nil b)
  | cons x xs ih =>
    intro hb
    rcases List.mem_append.mp hb with h | h
    · exact ⟨x, List.mem_cons_self _ _, h⟩
    · obtain ⟨a, ha, hfa⟩ := ih h
      exact ⟨a, List.mem_cons_of_mem _ ha, hfa⟩

theorem concatMap_length {α β : Type} (f : α → List β) :
    ∀ (l : List α), (concatMap f l).length = (l.map (fun a => (f a).length)).sum := by
  intro l
  induction l with
  | nil => rfl
  | cons x xs ih => simp [concatMap, List.length_append, ih]

theorem lookupA_mem {β : Type} :
    ∀ {l : List (String × β)} {k : String} {v : β}, lookupA l k = some v → (k, v) ∈ l := by
  intro l
  induction l with
  | nil => intro k v h; simp [lookupA] at h
  | cons p ps ih =>
    intro k v h
    rw [lookupA] at h
    split at h
    · rename_i heq
      injection h with h
      subst h
      subst heq
      exact List.mem_cons_self _ _
    · exact List.mem_cons_of_mem _ (ih h)

theorem lookupA_isSome_append {β : Type} {l2 : List (String × β)} {k : String} :
    ∀ {l1 : List (String × β)}, (lookupA l1 k).isSome = true →
      (lookupA (l1 ++ l2) k).isSome = true := by
  intro l1
  induction l1 with
  | nil => intro h; simp [lookupA] at h
  | cons p ps ih =>
    intro h
    rw [lookupA] at h
    rw [List.cons_append, lookupA]
    split
    · rfl
    · rename_i hne
      rw [if_neg hne] at h
      exact ih h

theorem lookupA_append_singleton_self {β : Type} {k : String} {v : β} :
    ∀ (l : List (String × β)), (lookupA (l ++ [(k, v)]) k).isSome = true := by
  intro l
  induction l with
  | nil => simp [lookupA]
  | cons p ps ih =>
    rw [List.cons_append, lookupA]
    split
    · rfl
    · exact ih

/-! ### Resolution under a totally failing remote -/

theorem fetch_license_failing (dep ver : String) (eco : Ecosystem) :
    fetchDependencyLicense dep eco ver [] failingRemote = (some "Unknown", true) := by
  cases eco with
  | python => rfl
  | javascript => rfl
  | java =>
    show (remoteLicenseJava dep failingRemote, true) = (some "Unknown", true)
    unfold remoteLicenseJava
    split <;> rfl
  | dotnet =>
    show (remoteLicenseDotnet dep ver [] failingRemote, true) = (some "Unknown", true)
    have h : githubProbe failingRemote
        ((fetchDependencyUrl dep Ecosystem.dotnet ver [] failingRemote).1) = none := by
      unfold githubProbe
      cases extractGithubRepoFromUrl
        ((fetchDependencyUrl dep Ecosystem.dotnet ver [] failingRemote).1) <;> rfl
    unfold remoteLicenseDotnet
    rw [h]
    rfl

theorem fetch_url_failing (dep ver : String) (eco : Ecosystem) :
    fetchDependencyUrl dep eco ver [] failingRemote = (registryFallbackUrl eco dep, true) := by
  cases eco with
  | python => rfl
  | javascript => rfl
  | dotnet => rfl
  | java =>
    show (remoteUrlJava dep failingRemote, true) = _
    unfold remoteUrlJava registryFallbackUrl
    split <;> rfl

theorem registryFallbackUrl_ne_empty (eco : Ecosystem) (dep : String) :
    registryFallbackUrl eco dep ≠ "" := by
  cases eco with
  | python => exact append_ne_empty_left (append_ne_empty_left (by decide))
  | javascript => exact append_ne_empty_left (by decide)
  | java => exact append_ne_empty_left (by decide)
  | dotnet => exact append_ne_empty_left (by decide)

theorem fetch_license_notFound (dep ver : String) (eco : Ecosystem) :
    fetchDependencyLicense dep eco ver [] notFoundRemote = (some "Unknown", true) := by
  cases eco with
  | python => rfl
  | javascript => rfl
  | java =>
    show (remoteLicenseJava dep notFoundRemote, true) = (some "Unknown", true)
    unfold remoteLicenseJava
    split <;> rfl
  | dotnet =>
    show (remoteLicenseDotnet dep ver [] notFoundRemote, true) = (some "Unknown", true)
    have h : githubProbe notFoundRemote
        ((fetchDependencyUrl dep Ecosystem.dotnet ver [] notFoundRemote).1) = none := by
      unfold githubProbe
      cases extractGithubRepoFromUrl
        ((fetchDependencyUrl dep Ecosystem.dotnet ver [] notFoundRemote).1) <;> rfl
    unfold remoteLicenseDotnet
    rw [h]
    rfl

theorem fetch_url_notFound (dep ver : String) (eco : Ecosystem) :
    fetchDependencyUrl dep eco ver [] notFoundRemote = (notFoundFallbackUrl eco dep, true) := by
  cases eco with
  | python => rfl
  | javascript => rfl
  | dotnet => rfl
  | java =>
    show (remoteUrlJava dep notFoundRemote, true) = _
    unfold remoteUrlJava notFoundFallbackUrl
    by_cases h : strContains dep ":" = true
    · simp only [if_pos h]
      rfl
    · simp only [if_neg h]

theorem notFoundFallbackUrl_ne_empty (eco : Ecosystem) (dep : String) :
    notFoundFallbackUrl eco dep ≠ "" := by
  cases eco with
  | python => exact append_ne_empty_left (append_ne_empty_left (by decide))
  | javascript => exact append_ne_empty_left (by decide)
  | dotnet => exact append_ne_empty_left (by decide)
  | java =>
    unfold notFoundFallbackUrl
    by_cases h : strContains dep ":" = true
    · simp only [if_pos h]
      exact append_ne_empty_left
        (append_ne_empty_left (append_ne_empty_left (by decide)))
    · simp only [if_neg h]
      exact append_ne_empty_left (by decide)

/-! ### Override-table lemmas -/

theorem overrideLicense_hit {map : DepMap} {key : String} {row : MappingRow}
    (hl : lookupA map key = some row) (hne : row.license ≠ "") :
    overrideLicense map key = some ("! " ++ row.license) := by
  cases map with
  | nil => simp [lookupA] at hl
  | cons p ps =>
    unfold overrideLicense
    rw [if_neg (by simp [List.isEmpty])]
    rw [hl]
    simp [bne_iff_ne, hne]

theorem overrideUrl_hit {map : DepMap} {key : String} {row : MappingRow}
    (hl : lookupA map key = some row) (hne : row.documentation_url ≠ "") :
    overrideUrl map key = some row.documentation_url := by
  cases map with
  | nil => simp [lookupA] at hl
  | cons p ps =>
    unfold overrideUrl
    rw [if_neg (by simp [List.isEmpty])]
    rw [hl]
    simp [bne_iff_ne, hne]

theorem overrideLicense_none_of_empty {map : DepMap} {key : String}
    (h : ∀ p ∈ map, (p : String × MappingRow).2.license = "") :
    overrideLicense map key = none := by
  unfold overrideLicense
  split
  · rfl
  · cases hl : lookupA map key with
    | none => rfl
    | some row =>
      have hr : row.license = "" := h _ (lookupA_mem hl)
      simp [hr]

theorem fetchLicense_override {dep ver : String} {eco : Ecosystem} {map : DepMap}
    {oracle : Remote} {row : MappingRow}
    (hl : lookupA map (lowerStr eco.key ++ ":" ++ lowerStr dep) = some row)
    (hne : row.license ≠ "") :
    fetchDependencyLicense dep eco ver map oracle = (some ("! " ++ row.license), false) := by
  unfold fetchDependencyLicense
  rw [overrideLicense_hit hl hne]

theorem fetchUrl_override {dep ver : String} {eco : Ecosystem} {map : DepMap}
    {oracle : Remote} {row : MappingRow}
    (hl : lookupA map (lowerStr eco.key ++ ":" ++ lowerStr dep) = some row)
    (hne : row.documentation_url ≠ "") :
    fetchDependencyUrl dep eco ver map oracle = (row.documentation_url, false) := by
  unfold fetchDependencyUrl
  rw [overrideUrl_hit hl hne]

theorem fetchLicense_remote_of_empty {dep ver : String} {eco : Ecosystem}
    {map : DepMap} {oracle : Remote}
    (h : ∀ p ∈ map, (p : String × MappingRow).2.license = "") :
    (fetchDependencyLicense dep eco ver map oracle).2 = true := by
  unfold fetchDependencyLicense
  rw [overrideLicense_none_of_empty h]

end DepAnalyzer

namespace DepAnalyzer

/-! ### Resolution-loop and pipeline lemmas -/

theorem resolveDeps_remoteCount_le (eco : Ecosystem) (map : DepMap) (oracle : Remote) :
    ∀ (deps : List (String × String)) (c : Nat),
      (resolveDeps eco map oracle deps c).remoteCount ≤ 10 - c := by
  intro deps
  induction deps with
  | nil => intro c; simp [resolveDeps]
  | cons dv rest ih =>
    intro c
    unfold resolveDeps
    split
    · simp
    · rename_i hc
      have hrest := ih (c + 1)
      have hc10 : c < 10 := Nat.lt_of_not_le hc
      have hb : (if (fetchDependencyLicense dv.1 eco dv.2 map oracle).2 ||
          (fetchDependencyUrl dv.1 eco dv.2 map oracle).2 then 1 else 0) ≤ 1 := by
        split <;> simp
      show (if (fetchDependencyLicense dv.1 eco dv.2 map oracle).2 ||
          (fetchDependencyUrl dv.1 eco dv.2 map oracle).2 then 1 else 0) +
          (resolveDeps eco map oracle rest (c + 1)).remoteCount ≤ 10 - c
      omega

theorem resolveDeps_licenses_unknown (eco : Ecosystem) (oracle : Remote)
    (hdead : ∀ (dep ver : String),
      fetchDependencyLicense dep eco ver [] oracle = (some "Unknown", true)) :
    ∀ (deps : List (String × String)) (c : Nat) (kv : String × Option String),
      kv ∈ (resolveDeps eco [] oracle deps c).licenses → kv.2 = some "Unknown" := by
  intro deps
  induction deps with
  | nil => intro c kv h; exact absurd h (List.not_mem_nil kv)
  | cons dv rest ih =>
    intro c kv h
    unfold resolveDeps at h
    split at h
    · exact absurd h (List.not_mem_nil kv)
    · rcases List.mem_cons.mp h with h | h
      · rw [h]
        show (fetchDependencyLicense dv.1 eco dv.2 [] oracle).1 = some "Unknown"
        rw [hdead]
      · exact ih (c + 1) kv h

theorem mem_presentEcosystems {data : RepoData} {eco : Ecosystem}
    (h : eco ∈ data.types) : eco ∈ presentEcosystems data := by
  apply List.mem_filter.mpr
  refine ⟨?_, List.elem_eq_true_of_mem h⟩
  cases eco <;> simp [ecosystemOrder]

theorem repoResult_mem {repos : List RepoData} {map : DepMap} {oracle : Remote}
    {data : RepoData} (h1 : data ∈ repos) (h2 : data.cloneOk = true) :
    repoResultFor (normalizeMapProcess map) oracle data ∈ processRepositories repos map oracle := by
  apply List.mem_filterMap.mpr
  exact ⟨data, h1, by simp [processRepo, h2]⟩

theorem processRepositories_shape {repos : List RepoData} {map : DepMap}
    {oracle : Remote} {r : RepoResult}
    (hr : r ∈ processRepositories repos map oracle) :
    ∃ data, data ∈ repos ∧ data.cloneOk = true ∧
      r = repoResultFor (normalizeMapProcess map) oracle data := by
  obtain ⟨data, hd, hp⟩ := List.mem_filterMap.mp hr
  refine ⟨data, hd, ?_, ?_⟩
  · by_cases hc : data.cloneOk
    · exact hc
    · simp [processRepo, hc] at hp
  · by_cases hc : data.cloneOk
    · simp [processRepo, hc] at hp
      exact hp.symm
    · simp [processRepo, hc] at hp

theorem storedLicense_unknown_dead {repos : List RepoData} {oracle : Remote}
    {r : RepoResult}
    (hdead : ∀ (dep ver : String) (eco : Ecosystem),
      fetchDependencyLicense dep eco ver [] oracle = (some "Unknown", true))
    (hr : r ∈ processRepositories repos [] oracle) (key : String) :
    storedLicense r key = some "Unknown" := by
  unfold storedLicense
  cases hl : lookupA r.depLicenses key with
  | none => rfl
  | some v =>
    obtain ⟨data, _, _, hshape⟩ := processRepositories_shape hr
    have hmem := lookupA_mem hl
    rw [hshape] at hmem
    have hmem2 : (key, v) ∈ concatMap
        (fun e => (resolveDeps e (normalizeMapProcess []) oracle (data.deps e) 0).licenses)
        (presentEcosystems data) := hmem
    obtain ⟨e, _, hin⟩ := exists_of_mem_concatMap hmem2
    exact resolveDeps_licenses_unknown e oracle (fun dep ver => hdead dep ver e)
      (data.deps e) 0 (key, v) hin

/-! ### Worklist lemmas -/

theorem worklistEntryFor_unknown {r : RepoResult} {eco : Ecosystem} {dv : String × String}
    (h : storedLicense r (eco.key ++ ":" ++ dv.1) = some "Unknown") :
    worklistEntryFor r eco dv =
      some (eco.key ++ ":" ++ dv.1,
        { dependency_name := dv.1
          dependency_type := eco.key
          version := dv.2
          license := ""
          documentation_url :=
            if startsWithS (storedUrl r (eco.key ++ ":" ++ dv.1))
                "https://www.google.com/search" = true then ""
            else storedUrl r (eco.key ++ ":" ++ dv.1) }) := by
  unfold worklistEntryFor
  rw [if_pos (Or.inl h), if_pos h]

theorem worklistAdd_preserves {acc : List (String × MappingRow)}
    {e : Option (String × MappingRow)} {k : String}
    (h : (lookupA acc k).isSome = true) :
    (lookupA (worklistAdd acc e) k).isSome = true := by
  cases e with
  | none => exact h
  | some kv =>
    by_cases hp : (lookupA acc kv.1).isSome = true
    · simpa [worklistAdd, hp] using h
    · simp only [worklistAdd, if_neg hp]
      exact lookupA_isSome_append h

theorem worklistAdd_inserts {acc : List (String × MappingRow)} {k : String}
    {row : MappingRow} :
    (lookupA (worklistAdd acc (some (k, row))) k).isSome = true := by
  by_cases hp : (lookupA acc k).isSome = true
  · simp [worklistAdd, hp]
  · simp only [worklistAdd]
    rw [if_neg hp]
    exact lookupA_append_singleton_self acc

theorem worklistFold_preserves {k : String} :
    ∀ (entries : List (RepoResult × Ecosystem × String × String))
      (acc : List (String × MappingRow)),
      (lookupA acc k).isSome = true →
      (lookupA (entries.foldl
        (fun acc e => worklistAdd acc (worklistEntryFor e.1 e.2.1 e.2.2)) acc) k).isSome = true := by
  intro entries
  induction entries with
  | nil => intro acc h; exact h
  | cons x xs ih => intro acc h; exact ih _ (worklistAdd_preserves h)

theorem worklistFold_key_mem {k : String} {row : MappingRow}
    {e0 : RepoResult × Ecosystem × String × String} :
    ∀ (entries : List (RepoResult × Ecosystem × String × String))
      (acc : List (String × MappingRow)),
      e0 ∈ entries →
      worklistEntryFor e0.1 e0.2.1 e0.2.2 = some (k, row) →
      (lookupA (entries.foldl
        (fun acc e => worklistAdd acc (worklistEntryFor e.1 e.2.1 e.2.2)) acc) k).isSome = true := by
  intro entries
  induction entries with
  | nil => intro acc he; exact absurd he (List.not_mem_nil e0)
  | cons x xs ih =>
    intro acc he hent
    rcases List.mem_cons.mp he with he | he
    · subst he
      rw [List.foldl_cons, hent]
      exact worklistFold_preserves xs _ worklistAdd_inserts
    · exact ih _ he hent

theorem worklistFold_forall {P : String × MappingRow → Prop} :
    ∀ (entries : List (RepoResult × Ecosystem × String × String))
      (acc : List (String × MappingRow)),
      (∀ e ∈ entries, ∀ kv, worklistEntryFor e.1 e.2.1 e.2.2 = some kv → P kv) →
      (∀ kv ∈ acc, P kv) →
      ∀ kv ∈ entries.foldl
        (fun acc e => worklistAdd acc (worklistEntryFor e.1 e.2.1 e.2.2)) acc, P kv := by
  intro entries
  induction entries with
  | nil => intro acc _ hacc kv h; exact hacc kv h
  | cons x xs ih =>
    intro acc hstep hacc kv h
    refine ih _ (fun e he => hstep e (List.mem_cons_of_mem _ he)) ?_ kv h
    intro kv2 h2
    change kv2 ∈ worklistAdd acc (worklistEntryFor x.1 x.2.1 x.2.2) at h2
    cases hx : worklistEntryFor x.1 x.2.1 x.2.2 with
    | none => rw [hx] at h2; exact hacc kv2 h2
    | some kv0 =>
      rw [hx] at h2
      by_cases hp : (lookupA acc kv0.1).isSome = true
      · rw [show worklistAdd acc (some kv0) = acc by simp [worklistAdd, hp]] at h2
        exact hacc kv2 h2
      · rw [show worklistAdd acc (some kv0) = acc ++ [kv0] by
          simp only [worklistAdd]; rw [if_neg hp]] at h2
        rcases List.mem_append.mp h2 with h2 | h2
        · exact hacc kv2 h2
        · have hkv : kv2 = kv0 := by simpa using h2
          subst hkv
          exact hstep x (List.mem_cons_self _ _) kv2 hx

theorem allDepEntries_shape {results : List RepoResult}
    {e : RepoResult × Ecosystem × String × String}
    (he : e ∈ allDepEntries results) :
    e.1 ∈ results ∧ ∃ deps, (e.2.1, deps) ∈ e.1.dependencies ∧ (e.2.2.1, e.2.2.2) ∈ deps := by
  obtain ⟨r, hr, hin⟩ := exists_of_mem_concatMap he
  obtain ⟨p, hp, hin2⟩ := exists_of_mem_concatMap hin
  obtain ⟨dv, hdv, heq⟩ := List.mem_map.mp hin2
  subst heq
  exact ⟨hr, p.2, hp, hdv⟩

theorem mem_allDepEntries {results : List RepoResult} {r : RepoResult}
    {eco : Ecosystem} {deps : List (String × String)} {dv : String × String}
    (hr : r ∈ results) (hd : (eco, deps) ∈ r.dependencies) (hdv : dv ∈ deps) :
    (r, eco, dv) ∈ allDepEntries results := by
  apply mem_concatMap_of hr
  apply mem_concatMap_of hd
  exact List.mem_map_of_mem _ hdv

/-! ### Trace lemmas -/

theorem countLoads_append (a b : List Ev) :
    countLoads (a ++ b) = countLoads a + countLoads b := by
  simp [countLoads, List.filter_append]

theorem countLoads_replicate_remote (n : Nat) :
    countLoads (List.replicate n Ev.remote) = 0 := by
  induction n with
  | zero => rfl
  | succ m ih =>
    rw [List.replicate_succ]
    exact ih

theorem countLoads_dispatches (l : List (Ecosystem × Nat)) :
    countLoads (concatMap (fun p => List.replicate p.2 Ev.remote) l) = 0 := by
  induction l with
  | nil => rfl
  | cons x xs ih =>
    rw [concatMap, countLoads_append, countLoads_replicate_remote, ih]

theorem countLoads_results (rs : List RepoResult) :
    countLoads (concatMap
      (fun r => concatMap (fun p => List.replicate p.2 Ev.remote) r.dispatches) rs) = 0 := by
  induction rs with
  | nil => rfl
  | cons x xs ih =>
    rw [concatMap, countLoads_append, countLoads_dispatches, ih]

end DepAnalyzer


namespace DepAnalyzer

/-! ### Report lemmas -/

theorem csvRowsFor_length (map2 : DepMap) (r : RepoResult) :
    (csvRowsFor map2 r).length = (r.dependencies.map (fun p => p.2.length)).sum := by
  unfold csvRowsFor
  rw [concatMap_length]
  simp [List.length_map]

theorem writeResultsToCsv_length (results : List RepoResult) (map2raw : DepMap) :
    (writeResultsToCsv results map2raw).length = totalDepCount results := by
  unfold writeResultsToCsv totalDepCount
  rw [concatMap_length]
  simp [csvRowsFor_length]

theorem csvRowFor_unresolved {map2 : DepMap} {r : RepoResult} {eco : Ecosystem}
    {dv : String × String}
    (h1 : lookupA r.depLicenses (eco.key ++ ":" ++ dv.1) = none)
    (h2 : lookupA r.depUrls (eco.key ++ ":" ++ dv.1) = none)
    (h3 : lookupA map2 (lowerStr eco.key ++ ":" ++ lowerStr dv.1) = none) :
    (csvRowFor map2 r eco dv).dependencyLicense = "Unknown" ∧
    (csvRowFor map2 r eco dv).documentationUrl = "" := by
  constructor
  · simp [csvRowFor, storedLicense, h1, h3, renderCell]
  · simp [csvRowFor, storedUrl, h2, h3]

end DepAnalyzer

namespace DepAnalyzer

/-! ### C1 -/

/-- C1 counterexample: the pair `(python, foo)` has an entry in the override
table — `rowEmptyLicense`, whose `license` field is empty, exactly the shape
the machine-generated worklist feeds back — yet license resolution passes
the override check into the remote section (dispatch flag `true`) and
returns `"Unknown"` without the `"! "` override marker.  This refutes the
claim that every dependency with an override-table entry resolves to a
marker-prefixed license with no remote call. -/
theorem c1_counterexample :
    lookupA [("python:foo", rowEmptyLicense)] "python:foo" = some rowEmptyLicense ∧
    fetchDependencyLicense "foo" Ecosystem.python "1.0"
      [("python:foo", rowEmptyLicense)] failingRemote = (some "Unknown", true) ∧
    startsWithS "Unknown" "! " = false := by
  decide

/-- C1 (amended): for every dependency whose override entry has a non-empty
`license` field, resolution returns the `"! "`-prefixed override license and
dispatches no remote call; likewise a non-empty `documentation_url` is
returned with no remote call.  (Override lookup precedes the remote section,
but an entry with an empty field falls through to remote resolution for that
field.) -/
theorem c1_override_preempts_remote (dep ver : String) (eco : Ecosystem)
    (map : DepMap) (oracle : Remote) (row : MappingRow)
    (hl : lookupA map (lowerStr eco.key ++ ":" ++ lowerStr dep) = some row) :
    (row.license ≠ "" →
      fetchDependencyLicense dep eco ver map oracle = (some ("! " ++ row.license), false)) ∧
    (row.documentation_url ≠ "" →
      fetchDependencyUrl dep eco ver map oracle = (row.documentation_url, false)) :=
  ⟨fun h => fetchLicense_override hl h, fun h => fetchUrl_override hl h⟩

/-- Witness for C1: the amended theorem applied to the concrete entry
`rowOverride` at key `python:foo`. -/
theorem c1_witness :
    fetchDependencyLicense "foo" Ecosystem.python "1.0"
      [("python:foo", rowOverride)] failingRemote = (some ("! " ++ rowOverride.license), false) ∧
    fetchDependencyUrl "foo" Ecosystem.python "1.0"
      [("python:foo", rowOverride)] failingRemote = (rowOverride.documentation_url, false) := by
  have h := c1_override_preempts_remote "foo" "1.0" Ecosystem.python
    [("python:foo", rowOverride)] failingRemote rowOverride (by decide)
  exact ⟨h.1 (by decide), h.2 (by decide)⟩

/-! ### C2 -/

/-- C2 counterexample: with eleven extracted dependencies, every one of the
four ecosystems dispatches exactly ten remote resolutions — the caps all
equal the same constant 10, so they are not distinct per ecosystem as the
claim states. -/
theorem c2_counterexample :
    elevenDeps.length = 11 ∧
    (resolveDeps Ecosystem.python [] failingRemote elevenDeps 0).remoteCount = 10 ∧
    (resolveDeps Ecosystem.javascript [] failingRemote elevenDeps 0).remoteCount = 10 ∧
    (resolveDeps Ecosystem.java [] failingRemote elevenDeps 0).remoteCount = 10 ∧
    (resolveDeps Ecosystem.dotnet [] failingRemote elevenDeps 0).remoteCount = 10 ∧
    (resolveDeps Ecosystem.python [] failingRemote elevenDeps 0).licenses.length = 10 := by
  decide

/-- C2 (amended): per repository each ecosystem runs its own budget counter
with the same cap 10: (a) at most 10 dependencies of an ecosystem dispatch
remote resolutions; (b) the CSV report still carries one row for every
extracted dependency — none are dropped; (c) a dependency skipped by the
budget (no stored license/URL) and absent from the override table gets the
explicit markers `'Unknown'` and the empty URL in its row. -/
theorem c2_budget_cap_and_recording :
    (∀ (eco : Ecosystem) (map : DepMap) (oracle : Remote) (deps : List (String × String)),
       (resolveDeps eco map oracle deps 0).remoteCount ≤ 10) ∧
    (∀ (results : List RepoResult) (map2raw : DepMap),
       (writeResultsToCsv results map2raw).length = totalDepCount results) ∧
    (∀ (map2 : DepMap) (r : RepoResult) (eco : Ecosystem) (dv : String × String),
       lookupA r.depLicenses (eco.key ++ ":" ++ dv.1) = none →
       lookupA r.depUrls (eco.key ++ ":" ++ dv.1) = none →
       lookupA map2 (lowerStr eco.key ++ ":" ++ lowerStr dv.1) = none →
       (csvRowFor map2 r eco dv).dependencyLicense = "Unknown" ∧
       (csvRowFor map2 r eco dv).documentationUrl = "") := by
  refine ⟨?_, writeResultsToCsv_length, fun _ _ _ _ => csvRowFor_unresolved⟩
  intro eco map oracle deps
  simpa using resolveDeps_remoteCount_le eco map oracle deps 0

/-- Witness for C2 at concrete inputs: the eleven-dependency dict, the
single-repository pipeline run, and a row for an unrecorded dependency. -/
theorem c2_witness :
    (resolveDeps Ecosystem.python [] failingRemote elevenDeps 0).remoteCount ≤ 10 ∧
    (writeResultsToCsv (processRepositories [repoPy] [] failingRemote) []).length
      = totalDepCount (processRepositories [repoPy] [] failingRemote) ∧
    ((csvRowFor [] (repoResultFor [] failingRemote repoEmpty) Ecosystem.python
        ("x", "1")).dependencyLicense = "Unknown" ∧
     (csvRowFor [] (repoResultFor [] failingRemote repoEmpty) Ecosystem.python
        ("x", "1")).documentationUrl = "") :=
  ⟨c2_budget_cap_and_recording.1 Ecosystem.python [] failingRemote elevenDeps,
   c2_budget_cap_and_recording.2.1 (processRepositories [repoPy] [] failingRemote) [],
   c2_budget_cap_and_recording.2.2 [] (repoResultFor [] failingRemote repoEmpty)
     Ecosystem.python ("x", "1") (by decide) (by decide) (by decide)⟩

end DepAnalyzer

namespace DepAnalyzer

/-! ### C6 -/

/-- C6 counterexample: a successfully analysed repository for which
extraction yields zero dependencies contributes zero rows to the tabular
report — there is no sentinel row, so the report does not contain exactly
one `N/A` row for it. -/
theorem c6_counterexample :
    writeResultsToCsv (processRepositories [repoEmpty] [] failingRemote) [] = [] ∧
    (writeResultsToCsv (processRepositories [repoEmpty] [] failingRemote) []).length ≠ 1 := by
  decide

/-- C6 (amended): a repository whose extracted dependency dicts are all
empty contributes no row at all to the tabular report (the writer loops over
the dependency dicts and never emits a sentinel row). -/
theorem c6_zero_dependencies_zero_rows (map2 : DepMap) (r : RepoResult)
    (h : ∀ p ∈ r.dependencies, (p : Ecosystem × List (String × String)).2 = []) :
    csvRowsFor map2 r = [] := by
  unfold csvRowsFor
  have hgen : ∀ l : List (Ecosystem × List (String × String)),
      (∀ p ∈ l, p.2 = []) →
      concatMap (fun p => p.2.map (csvRowFor map2 r p.1)) l = [] := by
    intro l
    induction l with
    | nil => intro _; rfl
    | cons x xs ih =>
      intro hl
      rw [concatMap, hl x (List.mem_cons_self _ _)]
      exact ih (fun p hp => hl p (List.mem_cons_of_mem _ hp))
  exact hgen _ h

/-- Witness for C6: the amended theorem applied to the zero-dependency
repository of the concrete run. -/
theorem c6_witness :
    csvRowsFor [] (repoResultFor [] failingRemote repoEmpty) = [] :=
  c6_zero_dependencies_zero_rows [] (repoResultFor [] failingRemote repoEmpty) (by decide)

/-! ### C7 -/

/-- C7 counterexample: one full run of `main` loads the override CSV three
times — once in `process_repositories`, once in `write_results_to_csv` and
once in `generate_markdown_report` — not exactly once. -/
theorem c7_counterexample :
    countLoads (mainTrace [] [] failingRemote) = 3 ∧
    countLoads (mainTrace [] [] failingRemote) ≠ 1 := by
  decide

/-- C7 (amended): every run of `main` loads the override CSV exactly three
times (processing, CSV report, markdown report; the worklist generator does
not load it).  Each consumer re-reads and re-normalises the file rather than
sharing one load; no consumer mutates a loaded table, but the table is
reloaded rather than loaded once. -/
theorem c7_three_loads (repos : List RepoData) (map : DepMap) (oracle : Remote) :
    countLoads (mainTrace repos map oracle) = 3 := by
  unfold mainTrace processRepositoriesTrace writeResultsToCsvTrace
    generateMarkdownReportTrace generateMissingMappingTrace
  rw [countLoads_append, countLoads_append, countLoads_append]
  have hcons : ∀ l, countLoads (Ev.load :: l) = countLoads l + 1 := fun _ => rfl
  rw [hcons, countLoads_results]
  rfl

/-! ### C8 -/

/-- C8 counterexample: a Gradle `group:/name:` dependency declaration with no
`version:` yields the `re.findall` tuple `(kind, group, name, "")` — the
optional version group is the empty string — and the extractor records the
empty string, not the `"latest"` sentinel, as the declared version. -/
theorem c8_counterexample :
    gradleMatchEntry ["implementation", "com.example", "lib", ""]
      = some ("com.example:lib", "") ∧
    ("" : String) ≠ "latest" := by
  decide

/-- C8 (amended): unpinned entries map to the `"latest"` sentinel in the
Python requirements extractor, the .NET `PackageReference` path and the
simple-string Gradle path — but a Gradle `group:/name:` declaration without
a version maps to the empty string instead. -/
theorem c8_unpinned_versions :
    (∀ (line pkg : String),
       reqMatch (trimS line) = some (pkg, none) →
       trimS line ≠ "" →
       startsWithS (trimS line) "#" = false →
       reqLineEntry line = some (trimS pkg, "latest")) ∧
    (∀ inc : String, inc ≠ "" → csprojPackageEntry (some inc) none = some (inc, "latest")) ∧
    (∀ kind dep : String, gavSearch dep = none →
       gradleMatchEntry [kind, dep] = some (dep, "latest")) ∧
    (∀ kind g a : String, gradleMatchEntry [kind, g, a, ""] = some (g ++ ":" ++ a, "")) := by
  refine ⟨?_, ?_, ?_, fun kind g a => rfl⟩
  · intro line pkg hm h1 h2
    unfold reqLineEntry
    have hc : (trimS line != "" && !startsWithS (trimS line) "#") = true := by
      rw [Bool.and_eq_true, bne_iff_ne, Bool.not_eq_true']
      exact ⟨h1, h2⟩
    rw [if_pos hc, hm]
    rfl
  · intro inc h
    unfold csprojPackageEntry
    simp [bne_iff_ne, h, orLatest]
  · intro kind dep h
    have he : gradleMatchEntry [kind, dep] =
        match gavSearch dep with
        | some gav => some (gav.1 ++ ":" ++ gav.2.1, gav.2.2)
        | none => some (dep, "latest") := rfl
    rw [he, h]

/-- Witness for C8: the amended theorem applied to the unpinned requirement
line `requests`, an unpinned `PackageReference`, and an unpinned
simple-string Gradle declaration. -/
theorem c8_witness :
    reqLineEntry "requests" = some (trimS "requests", "latest") ∧
    csprojPackageEntry (some "Newtonsoft.Json") none = some ("Newtonsoft.Json", "latest") ∧
    gradleMatchEntry ["api", "plainlib"] = some ("plainlib", "latest") ∧
    gradleMatchEntry ["implementation", "com.example", "lib", ""]
      = some ("com.example:lib", "") :=
  ⟨c8_unpinned_versions.1 "requests" "requests" (by decide) (by decide) (by decide),
   c8_unpinned_versions.2.1 "Newtonsoft.Json" (by decide),
   c8_unpinned_versions.2.2.1 "api" "plainlib" (by decide),
   c8_unpinned_versions.2.2.2 "implementation" "com.example" "lib"⟩

end DepAnalyzer

namespace InfraAnalyzer

/-! ### C9 -/

/-- C9 counterexample: `analyze_repository` sorts and deduplicates the
file-scan resources, but then `extend`s the list with workflow inline-script
resources without re-sorting or deduplicating.  With one file-scan resource
and the same workflow resource appended twice (two identical `azure/cli`
steps), the final sequence handed to the report writer has a duplicate and
is not sorted by `(language, resource_type, name)`. -/
theorem c9_counterexample :
    ¬ (assembleResources [resScan] [resActions, resActions]).Nodup ∧
    ¬ List.Sorted resLe (assembleResources [resScan] [resActions, resActions]) := by
  decide

/-- C9 (amended): only the file-scan portion of the resources sequence is
deduplicated (structurally) and sorted by `(language, resource_type, name)`;
resources extracted from workflow inline scripts are appended afterwards
verbatim, so the full sequence is sorted and duplicate-free only when that
appendix is empty. -/
theorem c9_sorted_scan_then_append (found wfExtras : List InfraResource) :
    (sortResources found).Nodup ∧
    List.Sorted resLe (sortResources found) ∧
    assembleResources found wfExtras = sortResources found ++ wfExtras := by
  haveI : IsTotal InfraResource resLe := ⟨resLeB_total⟩
  haveI : IsTrans InfraResource resLe := ⟨fun _ _ _ => resLeB_trans⟩
  refine ⟨?_, List.sorted_insertionSort resLe found.dedup, rfl⟩
  exact ((List.perm_insertionSort resLe found.dedup).nodup_iff).mpr (List.nodup_dedup found)

/-! ### C10 -/

/-- C10: `clone_repo` returns success immediately when the target directory
already exists — `Path.exists()` is true even for an empty, unpopulated
directory — without spawning `git`, and `analyze_repository` then proceeds
over whatever the directory contains (it raises only when `clone_repo`
returns `False`). -/
theorem c10_existing_dir_short_circuits (env : CloneEnv)
    (h : env.targetExists = true) :
    cloneRepo env = { success := true, gitInvoked := false } ∧
    analyzeRepositoryProceeds env = true := by
  constructor
  · simp [cloneRepo, h]
  · simp [analyzeRepositoryProceeds, cloneRepo, h]

/-- Witness for C10: an existing-but-empty target directory where `git`
itself would fail — `clone_repo` still reports success without invoking
it. -/
theorem c10_witness :
    cloneRepo { targetExists := true, gitCloneOk := false }
      = { success := true, gitInvoked := false } ∧
    analyzeRepositoryProceeds { targetExists := true, gitCloneOk := false } = true :=
  c10_existing_dir_short_circuits { targetExists := true, gitCloneOk := false } rfl

/-! ### C5 -/

/-- C5: the scheduler isolates per-repository failure: a repository whose
analysis fails has its error recorded in the gathered results
(`return_exceptions=True`), is excluded from the successful-report list, and
every repository whose analysis succeeds still appears there; conversely the
successful list holds only actual successes. -/
theorem c5_failure_isolated (repos : List String)
    (analyze : String → Except String InfraReport) (u : String) (hu : u ∈ repos) :
    (∀ e, analyze u = Except.error e → Except.error e ∈ gatherResults analyze repos) ∧
    (∀ rep, analyze u = Except.ok rep → rep ∈ successfulReports (gatherResults analyze repos)) ∧
    (∀ rep, rep ∈ successfulReports (gatherResults analyze repos) →
       ∃ v, v ∈ repos ∧ analyze v = Except.ok rep) := by
  refine ⟨?_, ?_, ?_⟩
  · intro e he
    rw [← he]
    exact List.mem_map_of_mem _ hu
  · intro rep hrep
    apply List.mem_filterMap.mpr
    refine ⟨Except.ok rep, ?_, rfl⟩
    rw [← hrep]
    exact List.mem_map_of_mem _ hu
  · intro rep hrep
    obtain ⟨x, hx, hfx⟩ := List.mem_filterMap.mp hrep
    obtain ⟨v, hv, hva⟩ := List.mem_map.mp hx
    refine ⟨v, hv, ?_⟩
    cases x with
    | ok a =>
      rw [hva]
      have : a = rep := by simpa using hfx
      rw [this]
    | error e => simp at hfx

/-- Witness for C5: in the demonstration run one clone fails; its error sits
in the gathered results while both healthy repositories appear in the
successful-report list. -/
theorem c5_witness :
    Except.error "clone failed" ∈ gatherResults demoAnalyze demoRepos ∧
    ({ url := "https://github.com/o/a", name := "https://github.com/o/a" } : InfraReport)
      ∈ successfulReports (gatherResults demoAnalyze demoRepos) ∧
    ({ url := "https://github.com/o/b", name := "https://github.com/o/b" } : InfraReport)
      ∈ successfulReports (gatherResults demoAnalyze demoRepos) := by
  refine ⟨?_, ?_, ?_⟩
  · exact (c5_failure_isolated demoRepos demoAnalyze "https://github.com/o/bad"
      (by decide)).1 "clone failed" rfl
  · exact (c5_failure_isolated demoRepos demoAnalyze "https://github.com/o/a"
      (by decide)).2.1 _ rfl
  · exact (c5_failure_isolated demoRepos demoAnalyze "https://github.com/o/b"
      (by decide)).2.1 _ rfl

end InfraAnalyzer

namespace DepAnalyzer

/-! ### Presence lemmas for the report and the worklist -/

theorem csv_presence {repos : List RepoData} {data : RepoData} {eco : Ecosystem}
    {dv : String × String} (map2raw map : DepMap) (oracle : Remote)
    (h1 : data ∈ repos) (h2 : data.cloneOk = true) (h3 : eco ∈ data.types)
    (h4 : dv ∈ data.deps eco) :
    csvRowFor (normalizeMapCsv map2raw)
        (repoResultFor (normalizeMapProcess map) oracle data) eco dv
      ∈ writeResultsToCsv (processRepositories repos map oracle) map2raw := by
  unfold writeResultsToCsv
  apply mem_concatMap_of (repoResult_mem h1 h2)
  unfold csvRowsFor
  have hdeps : (eco, data.deps eco) ∈
      (repoResultFor (normalizeMapProcess map) oracle data).dependencies :=
    List.mem_map_of_mem _ (mem_presentEcosystems h3)
  apply mem_concatMap_of hdeps
  exact List.mem_map_of_mem _ h4

theorem worklist_presence {repos : List RepoData} {oracle : Remote}
    {data : RepoData} {eco : Ecosystem} {dv : String × String}
    (hdead : ∀ (dep ver : String) (e : Ecosystem),
      fetchDependencyLicense dep e ver [] oracle = (some "Unknown", true))
    (h1 : data ∈ repos) (h2 : data.cloneOk = true) (h3 : eco ∈ data.types)
    (h4 : dv ∈ data.deps eco) :
    (lookupA (worklistPairs (processRepositories repos [] oracle))
       (eco.key ++ ":" ++ dv.1)).isSome = true := by
  have hrm : repoResultFor (normalizeMapProcess []) oracle data
      ∈ processRepositories repos [] oracle := repoResult_mem h1 h2
  have hdeps : (eco, data.deps eco) ∈
      (repoResultFor (normalizeMapProcess []) oracle data).dependencies :=
    List.mem_map_of_mem _ (mem_presentEcosystems h3)
  have he : (repoResultFor (normalizeMapProcess []) oracle data, eco, dv)
      ∈ allDepEntries (processRepositories repos [] oracle) :=
    mem_allDepEntries hrm hdeps h4
  have hu := storedLicense_unknown_dead hdead hrm (eco.key ++ ":" ++ dv.1)
  unfold worklistPairs
  exact worklistFold_key_mem _ _ he (worklistEntryFor_unknown hu)

/-! ### C3 -/

/-- C3 counterexample: a remote registry lookup for a name that does not
exist (every request answers non-200, the 404 scenario) degrades the license
to `"Unknown"`, but the URL is not the empty string the claim demands: it is
the constructed registry fallback page. -/
theorem c3_counterexample :
    fetchDependencyLicense "nosuchpkg" Ecosystem.python "latest" [] notFoundRemote
      = (some "Unknown", true) ∧
    fetchDependencyUrl "nosuchpkg" Ecosystem.python "latest" [] notFoundRemote
      = ("https://pypi.org/project/nosuchpkg/", true) ∧
    ("https://pypi.org/project/nosuchpkg/" : String) ≠ "" := by
  decide

/-- C3 (amended): whenever the remote registry request for a dependency
fails — by raising (timeout, transport error, or a malformed body making the
response parse raise), modelled by `failingRemote`, or by answering non-200
(name not found / 404), modelled by `notFoundRemote` — resolution never
raises (the embedded functions are total): the license degrades to
`"Unknown"` while the URL becomes a non-empty fallback, not `""`: the
ecosystem's registry fallback page on a raising failure, and on a non-200
the same page except for Java, where a `group:artifact` name gets the
constructed artifact browse link and any other name the search page.  Under
any oracle whose license lookups all fail this way, the failed dependency
still appears as a row of the full tabular report and under its
`(ecosystem, name)` key in the missing-data worklist. -/
theorem c3_remote_failure_degrades :
    (∀ (dep ver : String) (eco : Ecosystem),
       fetchDependencyLicense dep eco ver [] failingRemote = (some "Unknown", true) ∧
       fetchDependencyLicense dep eco ver [] notFoundRemote = (some "Unknown", true)) ∧
    (∀ (dep ver : String) (eco : Ecosystem),
       fetchDependencyUrl dep eco ver [] failingRemote = (registryFallbackUrl eco dep, true) ∧
       fetchDependencyUrl dep eco ver [] notFoundRemote = (notFoundFallbackUrl eco dep, true)) ∧
    (∀ (eco : Ecosystem) (dep : String),
       registryFallbackUrl eco dep ≠ "" ∧ notFoundFallbackUrl eco dep ≠ "") ∧
    (∀ (oracle : Remote),
       (∀ (dep ver : String) (eco : Ecosystem),
          fetchDependencyLicense dep eco ver [] oracle = (some "Unknown", true)) →
       ∀ (repos : List RepoData) (data : RepoData) (eco : Ecosystem)
         (dv : String × String) (map2raw : DepMap),
         data ∈ repos → data.cloneOk = true → eco ∈ data.types → dv ∈ data.deps eco →
         csvRowFor (normalizeMapCsv map2raw) (repoResultFor [] oracle data) eco dv
           ∈ writeResultsToCsv (processRepositories repos [] oracle) map2raw ∧
         (lookupA (worklistPairs (processRepositories repos [] oracle))
            (eco.key ++ ":" ++ dv.1)).isSome = true) := by
  refine ⟨fun dep ver eco =>
            ⟨fetch_license_failing dep ver eco, fetch_license_notFound dep ver eco⟩,
          fun dep ver eco =>
            ⟨fetch_url_failing dep ver eco, fetch_url_notFound dep ver eco⟩,
          fun eco dep =>
            ⟨registryFallbackUrl_ne_empty eco dep, notFoundFallbackUrl_ne_empty eco dep⟩,
          ?_⟩
  intro oracle hdead repos data eco dv map2raw h1 h2 h3 h4
  exact ⟨csv_presence map2raw [] oracle h1 h2 h3 h4,
         worklist_presence hdead h1 h2 h3 h4⟩

/-- Witness for C3: the amended theorem applied to concrete dependencies
under both failure oracles — including a Java `group:artifact` name, whose
404 fallback is the artifact browse link — and to the single-repository run
under the all-404 network. -/
theorem c3_witness :
    (fetchDependencyLicense "x" Ecosystem.javascript "latest" [] failingRemote
       = (some "Unknown", true) ∧
     fetchDependencyLicense "x" Ecosystem.javascript "latest" [] notFoundRemote
       = (some "Unknown", true)) ∧
    (fetchDependencyUrl "g:a" Ecosystem.java "latest" [] failingRemote
       = (registryFallbackUrl Ecosystem.java "g:a", true) ∧
     fetchDependencyUrl "g:a" Ecosystem.java "latest" [] notFoundRemote
       = (notFoundFallbackUrl Ecosystem.java "g:a", true)) ∧
    (registryFallbackUrl Ecosystem.java "g:a" ≠ "" ∧
     notFoundFallbackUrl Ecosystem.java "g:a" ≠ "") ∧
    (csvRowFor (normalizeMapCsv []) (repoResultFor [] notFoundRemote repoPy)
        Ecosystem.python ("f", "latest")
      ∈ writeResultsToCsv (processRepositories [repoPy] [] notFoundRemote) [] ∧
     (lookupA (worklistPairs (processRepositories [repoPy] [] notFoundRemote))
        (Ecosystem.python.key ++ ":" ++ ("f", "latest").1)).isSome = true) :=
  ⟨c3_remote_failure_degrades.1 "x" "latest" Ecosystem.javascript,
   c3_remote_failure_degrades.2.1 "g:a" "latest" Ecosystem.java,
   c3_remote_failure_degrades.2.2.1 Ecosystem.java "g:a",
   c3_remote_failure_degrades.2.2.2 notFoundRemote fetch_license_notFound
     [repoPy] repoPy Ecosystem.python ("f", "latest") []
     (List.mem_singleton.mpr rfl) rfl (by decide) (by decide)⟩

/-! ### C4 -/

/-- C4 counterexample: the single-repository run under a dead network writes
the worklist row `rowWorklist` — whose `license` field is empty, since the
generator blanks `'Unknown'` licenses.  Copying that row verbatim into the
override file and re-running makes the next license resolution pass the
override check into the remote section (dispatch flag `true`) and return an
unmarked `"Unknown"`: the dependency is neither override-sourced nor spared
a remote call, refuting the round-trip claim. -/
theorem c4_counterexample :
    generateMissingDependencyMapping (processRepositories [repoPy] [] failingRemote)
      = [rowWorklist] ∧
    rowWorklist.license = "" ∧
    fetchDependencyLicense "f" Ecosystem.python "latest"
      (normalizeMapProcess [("python:f", rowWorklist)]) failingRemote
      = (some "Unknown", true) ∧
    startsWithS "Unknown" "! " = false := by
  decide

/-- C4 (amended): copying a worklist row verbatim into the override file
override-sources exactly the fields the row carries non-empty.  A row with a
non-empty `license` field resolves on the next run to the `"! "`-marked
override license with no license-side remote call, and a row with a
non-empty `documentation_url` is served that URL with no URL-side remote
call; but a row whose `license` field is empty falls through the override
check, so the next run still dispatches a remote license lookup for it.
The generator blanks a row's `license` field exactly when the stored license
is `'Unknown'`; in particular every row written by a run whose remote
license lookups all fail carries an empty `license` field and so does not
round-trip on the license side. -/
theorem c4_worklist_round_trip :
    (∀ (row : MappingRow) (ver : String) (eco : Ecosystem) (oracle : Remote),
       row.license ≠ "" → row.dependency_type = eco.key →
       fetchDependencyLicense row.dependency_name eco ver
          (normalizeMapProcess
            [(row.dependency_type ++ ":" ++ row.dependency_name, row)]) oracle
         = (some ("! " ++ row.license), false)) ∧
    (∀ (r : RepoResult) (eco : Ecosystem) (dv : String × String)
       (k : String) (row : MappingRow),
       worklistEntryFor r eco dv = some (k, row) →
       row.license =
         (if storedLicense r (eco.key ++ ":" ++ dv.1) = some "Unknown" then ""
          else renderCell (storedLicense r (eco.key ++ ":" ++ dv.1)))) ∧
    (∀ (repos : List RepoData) (row : MappingRow),
       row ∈ generateMissingDependencyMapping (processRepositories repos [] failingRemote) →
       row.license = "") ∧
    (∀ (row : MappingRow) (dep ver : String) (eco : Ecosystem) (oracle : Remote),
       row.license = "" →
       (fetchDependencyLicense dep eco ver
          (normalizeMapProcess
            [(row.dependency_type ++ ":" ++ row.dependency_name, row)]) oracle).2 = true) ∧
    (∀ (row : MappingRow) (ver : String) (eco : Ecosystem) (oracle : Remote),
       row.documentation_url ≠ "" → row.dependency_type = eco.key →
       fetchDependencyUrl row.dependency_name eco ver
          (normalizeMapProcess
            [(row.dependency_type ++ ":" ++ row.dependency_name, row)]) oracle
         = (row.documentation_url, false)) := by
  refine ⟨?_, ?_, ?_, ?_, ?_⟩
  · intro row ver eco oracle hne ht
    apply fetchLicense_override ?_ hne
    rw [show normalizeMapProcess [(row.dependency_type ++ ":" ++ row.dependency_name, row)]
        = [(lowerStr (row.dependency_type ++ ":" ++ row.dependency_name), row)] from rfl]
    have hk : lowerStr (row.dependency_type ++ ":" ++ row.dependency_name)
        = lowerStr eco.key ++ ":" ++ lowerStr row.dependency_name := by
      rw [ht, lowerStr_append, lowerStr_append]
      rfl
    rw [hk]
    simp [lookupA]
  · intro r eco dv k row hent
    unfold worklistEntryFor at hent
    split at hent
    · injection hent with h
      injection h with h1 h2
      rw [← h2]
    · exact absurd hent (by simp)
  · intro repos row hrow
    unfold generateMissingDependencyMapping at hrow
    obtain ⟨kv, hkv, hsnd⟩ := List.mem_map.mp hrow
    have hP : kv.2.license = "" := by
      unfold worklistPairs at hkv
      refine @worklistFold_forall (fun kv => kv.2.license = "") _ _ ?_
        (fun kv2 h2 => absurd h2 (List.not_mem_nil kv2)) kv hkv
      intro e he kv0 hent
      obtain ⟨hr, deps, _, _⟩ := allDepEntries_shape he
      have hu := storedLicense_unknown_dead fetch_license_failing hr
        (e.2.1.key ++ ":" ++ e.2.2.1)
      rw [worklistEntryFor_unknown hu] at hent
      injection hent with hent
      rw [← hent]
    rw [← hsnd]
    exact hP
  · intro row dep ver eco oracle hl
    apply fetchLicense_remote_of_empty
    intro p hp
    rw [show normalizeMapProcess [(row.dependency_type ++ ":" ++ row.dependency_name, row)]
        = [(lowerStr (row.dependency_type ++ ":" ++ row.dependency_name), row)] from rfl] at hp
    have hps : p = (lowerStr (row.dependency_type ++ ":" ++ row.dependency_name), row) := by
      simpa using hp
    rw [hps]
    exact hl
  · intro row ver eco oracle hdoc ht
    apply fetchUrl_override ?_ hdoc
    rw [show normalizeMapProcess [(row.dependency_type ++ ":" ++ row.dependency_name, row)]
        = [(lowerStr (row.dependency_type ++ ":" ++ row.dependency_name), row)] from rfl]
    have hk : lowerStr (row.dependency_type ++ ":" ++ row.dependency_name)
        = lowerStr eco.key ++ ":" ++ lowerStr row.dependency_name := by
      rw [ht, lowerStr_append, lowerStr_append]
      rfl
    rw [hk]
    simp [lookupA]

/-- Witness for C4: the amended theorem applied to a non-empty-license row
(`rowOverride`), to the blanked worklist row of the concrete dead-network
run (`rowWorklist`) copied verbatim as the next run's override table, and to
that run's concrete worklist entry. -/
theorem c4_witness :
    fetchDependencyLicense rowOverride.dependency_name Ecosystem.python "1.0"
       (normalizeMapProcess
         [(rowOverride.dependency_type ++ ":" ++ rowOverride.dependency_name, rowOverride)])
       failingRemote
      = (some ("! " ++ rowOverride.license), false) ∧
    rowWorklist.license =
      (if storedLicense (repoResultFor [] failingRemote repoPy)
           (Ecosystem.python.key ++ ":" ++ ("f", "latest").1) = some "Unknown" then ""
       else renderCell (storedLicense (repoResultFor [] failingRemote repoPy)
           (Ecosystem.python.key ++ ":" ++ ("f", "latest").1))) ∧
    rowWorklist.license = "" ∧
    (fetchDependencyLicense "f" Ecosystem.python "latest"
       (normalizeMapProcess
         [(rowWorklist.dependency_type ++ ":" ++ rowWorklist.dependency_name, rowWorklist)])
       failingRemote).2 = true ∧
    fetchDependencyUrl rowWorklist.dependency_name Ecosystem.python "latest"
       (normalizeMapProcess
         [(rowWorklist.dependency_type ++ ":" ++ rowWorklist.dependency_name, rowWorklist)])
       failingRemote
      = (rowWorklist.documentation_url, false) :=
  ⟨c4_worklist_round_trip.1 rowOverride "1.0" Ecosystem.python failingRemote
     (by decide) rfl,
   c4_worklist_round_trip.2.1 (repoResultFor [] failingRemote repoPy) Ecosystem.python
     ("f", "latest") "python:f" rowWorklist (by decide),
   c4_worklist_round_trip.2.2.1 [repoPy] rowWorklist (by decide),
   c4_worklist_round_trip.2.2.2.1 rowWorklist "f" "latest" Ecosystem.python
     failingRemote rfl,
   c4_worklist_round_trip.2.2.2.2 rowWorklist "latest" Ecosystem.python failingRemote
     (by decide) rfl⟩

end DepAnalyzer

namespace DepAnalyzer

/-- Witness for C7: the load count of a concrete run. -/
theorem c7_witness : countLoads (mainTrace [repoPy] [] failingRemote) = 3 :=
  c7_three_loads [repoPy] [] failingRemote

end DepAnalyzer

namespace InfraAnalyzer

/-- Witness for C9: the amended theorem at a concrete scan result and
workflow appendix. -/
theorem c9_witness :
    (sortResources [resScan, resScan, resActions]).Nodup ∧
    List.Sorted resLe (sortResources [resScan, resScan, resActions]) ∧
    assembleResources [resScan, resScan, resActions] [resActions]
      = sortResources [resScan, resScan, resActions] ++ [resActions] :=
  c9_sorted_scan_then_append [resScan, resScan, resActions] [resActions]

end InfraAnalyzer
